import Mathlib

/-!
Verification of the deduplication and download-orchestration core of the
`caijibot` repository, as a shallow embedding in Lean 4.

Conventions used throughout:
* Python `float` similarity arithmetic is embedded as `ℚ`.
* Python `None` / missing dict keys are embedded as `Option`; Python
  truthiness of an optional integer (`if x:`) is `some v` with `v ≠ 0`,
  of an optional string it is `some s` with `s ≠ ""`, and of a plain
  string column it is `s ≠ ""` (a SQL `NULL` text column is modelled as
  the empty string: both are falsy and neither contains a non-empty
  substring).
* External library calls (hashlib digests, imagehash Hamming distance,
  numpy `corrcoef`) are parameters of the embedding: the repository only
  selects and combines their results, so the embedded functions are
  universally quantified over them.
* `async` functions are pure state transformers; `await asyncio.sleep`
  performed by a worker is recorded in an explicit effect log.
-/

set_option maxRecDepth 10000

namespace Caijibot

/-- `MediaType` enum of `src/database/models.py`. -/
inductive MediaType where
  | video
  | image
  | document
  | audio
deriving DecidableEq, Repr

/-- `MessageStatus` enum of `src/database/models.py`. -/
inductive MessageStatus where
  | pending
  | downloading
  | processing
  | completed
  | failed
  | duplicate
  | skipped
deriving DecidableEq, Repr

/-! ## Download manager (`src/storage/download_manager.py`) -/

/-- The fields of a `Message` row that the download manager reads. -/
structure DlMsg where
  id : Nat
  messageId : Nat
  channelId : Nat
  fileName : String
  fileSize : Option Nat
deriving DecidableEq, Repr

/-- `DownloadTask.__init__`: wraps a message with a priority; fresh tasks
start in state `"pending"` with zero progress. -/
structure DownloadTask where
  message : DlMsg
  priority : Int
  status : String
  progress : ℚ
  error : Option String
  downloadPath : Option String
deriving DecidableEq, Repr

def DownloadTask.new (message : DlMsg) (priority : Int) : DownloadTask :=
  ⟨message, priority, "pending", 0, none, none⟩

/-- The `download_stats` counters of `DownloadManager`. -/
structure DownloadStats where
  totalQueued : Nat
  totalCompleted : Nat
  totalFailed : Nat
  totalBytesDownloaded : Nat
deriving DecidableEq, Repr

/-- The mutable state of a `DownloadManager`: `download_queue` is a plain
`asyncio.Queue` (FIFO: `put` appends at the back, `get` removes at the
front), `active_downloads` maps message id to task, `download_history`
is the bounded history list.  `sleeps` is the log of durations the
worker has passed to `asyncio.sleep`. -/
structure DMState where
  downloadQueue : List DownloadTask
  activeDownloads : List (Nat × DownloadTask)
  downloadHistory : List DownloadTask
  stats : DownloadStats
  sleeps : List Nat
deriving DecidableEq, Repr

def DMState.init : DMState :=
  ⟨[], [], [], ⟨0, 0, 0, 0⟩, []⟩

/-- `asyncio.Queue.get`: removes the element at the front (admission
order); the queue class used has no priority ordering. -/
def queue_get (q : List DownloadTask) : Option (DownloadTask × List DownloadTask) :=
  match q with
  | [] => none
  | t :: ts => some (t, ts)

/-- `asyncio.Queue.put`: appends at the back. -/
def queue_put (q : List DownloadTask) (t : DownloadTask) : List DownloadTask :=
  q ++ [t]

/-- `DownloadManager.add_download_task`: rejected when the message id is
already an active download, otherwise the new task is put on the queue,
registered active, and the queued counter is incremented. -/
def add_download_task (s : DMState) (message : DlMsg) (priority : Int) :
    Bool × DMState :=
  if (s.activeDownloads.map Prod.fst).contains message.id then
    (false, s)
  else
    let task := DownloadTask.new message priority
    (true,
      { s with
        downloadQueue := queue_put s.downloadQueue task
        activeDownloads := s.activeDownloads ++ [(message.id, task)]
        stats := { s.stats with totalQueued := s.stats.totalQueued + 1 } })

/-- The order in which a single worker draining the queue executes the
tasks: `_download_worker` repeatedly performs `download_queue.get()`,
which for `asyncio.Queue` is first-in first-out. -/
def worker_dispatch_order : List DownloadTask → List DownloadTask
  | [] => []
  | t :: ts => t :: worker_dispatch_order ts

/-- Outcome of the Telegram client calls made inside
`_download_file_from_telegram` (external interface). -/
inductive TelegramTransfer where
  | ok (path : String)
  | noMedia
  | floodWait (seconds : Nat)
  | err (msg : String)
deriving DecidableEq, Repr

/-- `DownloadManager._download_file_from_telegram`: the whole body is
wrapped in `try ... except Exception: return None`, so every raised
exception — including `FloodWaitError`, which subclasses `Exception` —
is converted to `None`. -/
def download_file_from_telegram : TelegramTransfer → Option String
  | .ok p => some p
  | .noMedia => none
  | .floodWait _ => none
  | .err _ => none

/-- Python exceptions that `_execute_download_task` distinguishes. -/
inductive PyExc where
  | floodWaitError (seconds : Nat)
  | exc (msg : String)
deriving DecidableEq, Repr

/-- The `try` body of `_execute_download_task`: download, then organize;
a `None` from either step raises a plain `Exception`. -/
def download_try_body (transfer : TelegramTransfer)
    (organize : String → Option String) (task : DownloadTask)
    (stats : DownloadStats) : Except PyExc (DownloadTask × DownloadStats) :=
  let task := { task with status := "downloading" }
  match download_file_from_telegram transfer with
  | some downloadPath =>
      match organize downloadPath with
      | some finalPath =>
          .ok ({ task with
                  status := "completed"
                  downloadPath := some finalPath
                  progress := 1 },
               { stats with
                  totalCompleted := stats.totalCompleted + 1
                  totalBytesDownloaded :=
                    stats.totalBytesDownloaded + (task.message.fileSize.getD 0) })
      | none => .error (.exc "文件组织失败")
  | none => .error (.exc "下载失败")

/-- History trimming at the end of `_execute_download_task`: past 1000
entries only the last 500 are kept. -/
def trim_history (h : List DownloadTask) : List DownloadTask :=
  if h.length > 1000 then h.drop (h.length - 500) else h

/-- `DownloadManager._execute_download_task`: runs the body, handles
`FloodWaitError` by re-queuing the task as `"pending"` and sleeping the
signalled seconds, handles any other exception by marking the task
`"failed"` and bumping the failed counter; the `finally` block removes
the message from the active set and appends the task to the history. -/
def execute_download_task (transfer : TelegramTransfer)
    (organize : String → Option String) (task : DownloadTask)
    (s : DMState) : DMState :=
  let message := task.message
  let afterTry : DownloadTask × DMState :=
    match download_try_body transfer organize task s.stats with
    | .ok (task', stats') => (task', { s with stats := stats' })
    | .error (.floodWaitError w) =>
        let task' := { task with status := "pending" }
        (task', { s with
                   downloadQueue := queue_put s.downloadQueue task'
                   sleeps := s.sleeps ++ [w] })
    | .error (.exc m) =>
        let task' := { task with status := "failed", error := some m }
        (task', { s with
                   stats := { s.stats with
                               totalFailed := s.stats.totalFailed + 1 } })
  let (task', s') := afterTry
  { s' with
    activeDownloads := s'.activeDownloads.filter (fun kv => kv.1 ≠ message.id)
    downloadHistory := trim_history (s'.downloadHistory ++ [task']) }

/-! ## Hash deduplicator (`src/deduplicator/hash_deduplicator.py`) -/

/-- The `hashlib` digests used by the hash deduplicator, as abstract
functions from file content (a byte list) to a hex string.  The 8 KiB
chunked read feeds the same bytes to the hasher as a single pass. -/
structure HashLib where
  md5 : List Nat → String
  sha1 : List Nat → String
  sha256 : List Nat → String

/-- `HashDeduplicator.calculate_file_hash`: `None` when the file does not
exist; `None` (after a logged error) for any algorithm outside
`md5`/`sha1`/`sha256`; otherwise the selected digest of the content. -/
def calculate_file_hash (hl : HashLib) (fileOnDisk : Option (List Nat))
    (algorithm : String) : Option String :=
  match fileOnDisk with
  | none => none
  | some content =>
      if algorithm = "md5" then some (hl.md5 content)
      else if algorithm = "sha1" then some (hl.sha1 content)
      else if algorithm = "sha256" then some (hl.sha256 content)
      else none

/-- `HashDeduplicator.calculate_content_hash`: same dispatch, except that
an unrecognised algorithm silently falls back to MD5. -/
def calculate_content_hash (hl : HashLib) (content : List Nat)
    (algorithm : String) : String :=
  if algorithm = "md5" then hl.md5 content
  else if algorithm = "sha1" then hl.sha1 content
  else if algorithm = "sha256" then hl.sha256 content
  else hl.md5 content

/-! ## Message rows and duplicate records

The `Message` columns read by the hash, image, metadata and pre-download
deduplicators, and the `DuplicateRecord` rows they append. -/

structure MsgRec where
  id : Nat
  messageId : Nat
  channelId : Nat
  messageText : String
  mediaType : Option MediaType
  fileName : Option String
  fileSize : Option Nat
  filePath : Option String
  fileHash : Option String
  contentHash : Option String
  status : MessageStatus
  isDuplicate : Bool
  originalMessageId : Option Nat
  createdAt : Nat
deriving DecidableEq, Repr

/-- A `DuplicateRecord` row (`src/database/models.py`). -/
structure DuplicateRecordRow where
  originalMessageId : Nat
  duplicateMessageId : Nat
  similarityScore : ℚ
  similarityType : String
  actionTaken : String
  reason : String
deriving DecidableEq, Repr

/-- The slice of the persistence store the post-download deduplicators
read and write. -/
structure Db where
  messages : List MsgRec
  duplicateRecords : List DuplicateRecordRow
deriving DecidableEq, Repr

/-- `ORDER BY created_at ASC`, as a stable insertion sort. -/
def insert_by_created (m : MsgRec) : List MsgRec → List MsgRec
  | [] => [m]
  | x :: xs =>
      if m.createdAt < x.createdAt then m :: x :: xs
      else x :: insert_by_created m xs

def sort_by_created (l : List MsgRec) : List MsgRec :=
  l.foldr insert_by_created []

/-- `HashDeduplicator.find_duplicate_by_hash`: rows with the given file
hash whose status is not `duplicate`, oldest first. -/
def find_duplicate_by_hash (db : Db) (fileHash : String) : List MsgRec :=
  sort_by_created (db.messages.filter (fun m =>
    m.fileHash = some fileHash ∧ m.status ≠ MessageStatus.duplicate))

/-- `HashDeduplicator.detect_duplicates`: empty when the message has no
hash; otherwise every other row with the same hash, paired with
similarity 1.0. -/
def detect_duplicates (db : Db) (message : MsgRec) : List (MsgRec × ℚ) :=
  match message.fileHash with
  | none => []
  | some h =>
      ((find_duplicate_by_hash db h).filter (fun m => m.id ≠ message.id)).map
        (fun m => (m, 1))

/-- Marking one row duplicate: sets `status=duplicate`,
`is_duplicate=True`, `original_message_id`, and appends one
`DuplicateRecord`.  Shared shape of `HashDeduplicator.mark_as_duplicate`
and `ImageDeduplicator.mark_image_as_duplicate`. -/
def mark_duplicate_row (db : Db) (original duplicate : MsgRec)
    (similarityScore : ℚ) (similarityType action reason : String) : Db :=
  { messages := db.messages.map (fun m =>
      if m.id = duplicate.id then
        { m with
          status := MessageStatus.duplicate
          isDuplicate := true
          originalMessageId := some original.id }
      else m)
    duplicateRecords := db.duplicateRecords ++
      [⟨original.id, duplicate.id, similarityScore, similarityType, action, reason⟩] }

/-- `HashDeduplicator.mark_as_duplicate`. -/
def mark_as_duplicate (db : Db) (original duplicate : MsgRec)
    (similarityScore : ℚ) (action : String) : Db :=
  mark_duplicate_row db original duplicate similarityScore "hash" action
    "文件哈希值完全相同"

/-- The keep-earliest loop of `HashDeduplicator.
process_message_deduplication`: for each detected pair, the message
created strictly earlier becomes the original; on ties the detected
candidate does. -/
def hash_resolve_pairs (message : MsgRec) :
    List (MsgRec × ℚ) → Db → Nat × Db
  | [], db => (0, db)
  | (dupMsg, similarity) :: rest, db =>
      let db' :=
        if message.createdAt < dupMsg.createdAt then
          mark_as_duplicate db message dupMsg similarity "keep_original"
        else
          mark_as_duplicate db dupMsg message similarity "keep_original"
      let tail := hash_resolve_pairs message rest db'
      (tail.1 + 1, tail.2)

structure ProcessResult where
  success : Bool
  reason : String
  duplicatesFound : Nat
  duplicatesProcessed : Option Nat
deriving DecidableEq, Repr

/-- Re-reading the message row after its hash column was written
(`result.scalar_one()`). -/
def refetch (db : Db) (msgId : Nat) (fallback : MsgRec) : MsgRec :=
  (db.messages.find? (fun m => m.id = msgId)).getD fallback

/-- Writing a freshly computed hash column
(`HashDeduplicator.update_message_hash`, reduced to its UPDATE; the
digest itself is the `fileDigest` parameter, `None` when
`calculate_file_hash` failed). -/
def update_message_hash (db : Db) (msgId : Nat) (fileHash : String) : Db :=
  { db with messages := db.messages.map (fun m =>
      if m.id = msgId then { m with fileHash := some fileHash } else m) }

/-- `HashDeduplicator.process_message_deduplication`. -/
def process_message_deduplication (fileDigest : Option String)
    (message : MsgRec) (db : Db) : ProcessResult × Db :=
  match message.filePath with
  | none => (⟨false, "消息没有文件路径", 0, none⟩, db)
  | some _ =>
    let afterHash : Option (MsgRec × Db) :=
      match message.fileHash with
      | some _ => some (message, db)
      | none =>
          match fileDigest with
          | none => none
          | some h =>
              let db' := update_message_hash db message.id h
              some (refetch db' message.id { message with fileHash := some h }, db')
    match afterHash with
    | none => (⟨false, "无法计算文件哈希值", 0, none⟩, db)
    | some (message', db') =>
        let duplicates := detect_duplicates db' message'
        if duplicates.isEmpty then
          (⟨true, "未发现重复文件", 0, none⟩, db')
        else
          let (processed, db'') := hash_resolve_pairs message' duplicates db'
          (⟨true, "处理了重复文件", duplicates.length, some processed⟩, db'')

/-! ## Image deduplicator (`src/deduplicator/image_deduplicator.py`) -/

/-- The `imagehash` library operations the image deduplicator calls:
`hex_to_hash` on both strings followed by the Hamming distance
`h1 - h2`; `.error` models the library raising (malformed hex). -/
structure ImageLib where
  hammingDistance : String → String → Except String Nat

/-- `ImageDeduplicator.calculate_hash_similarity`: 0 on falsy input or a
library error, otherwise `1 - distance / (4 · |hash1|)` clamped to
[0, 1]. -/
def calculate_hash_similarity (il : ImageLib) (hash1 hash2 : String) : ℚ :=
  if hash1 = "" ∨ hash2 = "" then 0
  else
    match il.hammingDistance hash1 hash2 with
    | .error _ => 0
    | .ok d =>
        let maxDistance : ℚ := (hash1.length : ℚ) * 4
        max 0 (min 1 (1 - (d : ℚ) / maxDistance))

/-- `ImageDeduplicator.find_similar_images`: all image rows with a
content hash and non-duplicate status, skipping rows whose hash is
identical to the probe, kept when similarity is at or above the
threshold. -/
def find_similar_images (il : ImageLib) (threshold : ℚ) (db : Db)
    (contentHash : String) : List MsgRec :=
  ((db.messages.filter (fun m =>
      m.mediaType = some MediaType.image ∧ m.contentHash ≠ none ∧
      m.status ≠ MessageStatus.duplicate)).filter (fun m =>
    m.contentHash ≠ some contentHash ∧
    calculate_hash_similarity il contentHash (m.contentHash.getD "") ≥ threshold))

/-- Descending sort by similarity (`duplicate_pairs.sort(reverse=True)`). -/
def insert_by_sim_desc (p : MsgRec × ℚ) :
    List (MsgRec × ℚ) → List (MsgRec × ℚ)
  | [] => [p]
  | x :: xs =>
      if p.2 > x.2 then p :: x :: xs else x :: insert_by_sim_desc p xs

def sort_by_sim_desc (l : List (MsgRec × ℚ)) : List (MsgRec × ℚ) :=
  l.foldr insert_by_sim_desc []

/-- `ImageDeduplicator.detect_image_duplicates`. -/
def detect_image_duplicates (il : ImageLib) (threshold : ℚ) (db : Db)
    (message : MsgRec) : List (MsgRec × ℚ) :=
  if message.mediaType ≠ some MediaType.image then []
  else
    match message.contentHash with
    | none => []
    | some h =>
        if h = "" then []
        else
          sort_by_sim_desc ((find_similar_images il threshold db h).map
            (fun m => (m, calculate_hash_similarity il h (m.contentHash.getD ""))))

/-- `ImageDeduplicator.mark_image_as_duplicate` (Python renders the score
with three decimals in the reason text; the formatting is not modelled). -/
def mark_image_as_duplicate (db : Db) (original duplicate : MsgRec)
    (similarityScore : ℚ) (action : String) : Db :=
  mark_duplicate_row db original duplicate similarityScore "image_hash" action
    "图片感知哈希相似度"

/-- The keep-earliest loop of
`ImageDeduplicator.process_image_deduplication`. -/
def image_resolve_pairs (message : MsgRec) :
    List (MsgRec × ℚ) → Db → Nat × Db
  | [], db => (0, db)
  | (dupMsg, similarity) :: rest, db =>
      let db' :=
        if message.createdAt < dupMsg.createdAt then
          mark_image_as_duplicate db message dupMsg similarity "keep_original"
        else
          mark_image_as_duplicate db dupMsg message similarity "keep_original"
      let tail := image_resolve_pairs message rest db'
      (tail.1 + 1, tail.2)

/-- `ImageDeduplicator.process_image_deduplication` (`perceptualHash` is
the outcome of `calculate_perceptual_hash` on the file, `None` when the
imaging library failed or the file is unreadable). -/
def process_image_deduplication (il : ImageLib) (threshold : ℚ)
    (perceptualHash : Option String) (message : MsgRec) (db : Db) :
    ProcessResult × Db :=
  if message.mediaType ≠ some MediaType.image then
    (⟨false, "不是图片消息", 0, none⟩, db)
  else
    match message.filePath with
    | none => (⟨false, "消息没有文件路径", 0, none⟩, db)
    | some _ =>
      let afterHash : Option (MsgRec × Db) :=
        match message.contentHash with
        | some h => if h = "" then none else some (message, db)
        | none => none
      let afterHash : Option (MsgRec × Db) :=
        match afterHash with
        | some v => some v
        | none =>
            match perceptualHash with
            | none => none
            | some h =>
                if h = "" then none
                else
                  let db' := { db with messages := db.messages.map (fun m =>
                    if m.id = message.id then { m with contentHash := some h }
                    else m) }
                  some (refetch db' message.id
                          { message with contentHash := some h }, db')
      match afterHash with
      | none => (⟨false, "无法计算图片内容哈希值", 0, none⟩, db)
      | some (message', db') =>
          let duplicates := detect_image_duplicates il threshold db' message'
          if duplicates.isEmpty then
            (⟨true, "未发现相似图片", 0, none⟩, db')
          else
            let (processed, db'') := image_resolve_pairs message' duplicates db'
            (⟨true, "处理了相似图片", duplicates.length, some processed⟩, db'')

/-! ## String helpers shared by the metadata and pre-download screens -/

/-- `pat` is an initial segment of `s`. -/
def list_is_init (pat s : List Char) : Bool :=
  match pat, s with
  | [], _ => true
  | _ :: _, [] => false
  | p :: ps, c :: cs => p = c && list_is_init ps cs

/-- `pat` occurs as a contiguous substring of `s` (SQL LIKE with `%`
wildcards around `pat` /
Python `in`; the case-insensitivity SQLite applies to ASCII `LIKE` is
not modelled — the claims under study use it only as containment). -/
def list_contains_sub (s pat : List Char) : Bool :=
  match s with
  | [] => pat.isEmpty
  | _ :: cs => list_is_init pat s || list_contains_sub cs pat

def str_contains_sub (s pat : String) : Bool :=
  list_contains_sub s.toList pat.toList

def skip_spaces : List Char → List Char
  | [] => []
  | c :: cs =>
      if c = ' ' ∨ c = '\t' ∨ c = '\n' ∨ c = '\r' then skip_spaces cs
      else c :: cs

def digits_to_nat (ds : List Char) : Nat :=
  ds.foldl (fun n c => n * 10 + (c.toNat - 48)) 0

/-- `re.search(pat + r'\s*(\d+)', s)` for a literal `pat`: the first
occurrence of `pat` followed (after whitespace) by at least one digit
yields that digit run as a number. -/
def search_key_nat (pat : List Char) : List Char → Option Nat
  | [] => none
  | s@(_ :: cs) =>
      if list_is_init pat s then
        let ds := (skip_spaces (s.drop pat.length)).takeWhile Char.isDigit
        if ds.isEmpty then search_key_nat pat cs
        else some (digits_to_nat ds)
      else search_key_nat pat cs

/-- `re.search(r'"key":\s*(\d+)', text)` as used by
`MetadataDeduplicator._calculate_video_similarity`. -/
def find_json_nat (key : String) (text : String) : Option Nat :=
  search_key_nat ("\"" ++ key ++ "\":").toList text.toList

/-- Absolute difference of naturals. -/
def abs_diff (a b : Nat) : Nat := max a b - min a b

/-- Python `a or b` on optional non-negative integers: the left value if
truthy (present and non-zero), otherwise the right. -/
def py_or_nat (a b : Option Nat) : Option Nat :=
  match a with
  | some x => if x = 0 then b else some x
  | none => b

/-! ## Metadata deduplicator (`src/deduplicator/metadata_deduplicator.py`) -/

/-- The metadata dict `_extract_file_metadata` builds from a Telegram
message (only the fields the duplicate checks read). -/
structure FileMetadata where
  messageId : Nat
  messageText : String
  fileName : Option String
  fileSize : Option Nat
  mediaType : Option MediaType
  duration : Option Nat
  width : Option Nat
  height : Option Nat
  imageWidth : Option Nat
  imageHeight : Option Nat
  telegramFileId : Option String
deriving DecidableEq, Repr

/-- The result dicts of the screening operations.  A field holds `none`
exactly when the Python dict omits the corresponding key. -/
structure ScreenResult where
  isDuplicate : Bool
  shouldDownload : Option Bool
  needsManualReview : Option Bool
  reason : String
  originalMessageId : Option Nat
  similarityScore : Option ℚ
  duplicateType : Option String
  error : Option String
deriving DecidableEq, Repr

/-- A result dict carrying only `is_duplicate` and `reason`. -/
def ScreenResult.bare (isDuplicate : Bool) (reason : String) : ScreenResult :=
  ⟨isDuplicate, none, none, reason, none, none, none, none⟩

/-- `MetadataDeduplicator._calculate_video_similarity`: weighted sum of
duration (50%), resolution (30%) and declared-size (20%) similarities;
each term is only added when its inputs are available (truthy), with no
renormalisation; `is_similar` compares the total against the configured
threshold. -/
def calculate_video_similarity_meta (threshold : ℚ) (meta : FileMetadata)
    (msg : MsgRec) : Bool × ℚ :=
  let durationScore : List ℚ :=
    match meta.duration with
    | some d1 =>
        if d1 ≠ 0 ∧ msg.messageText ≠ "" then
          match find_json_nat "duration" msg.messageText with
          | some d2 =>
              [max 0 (1 - (abs_diff d1 d2 : ℚ) / (max d1 d2 : ℚ)) * (1/2)]
          | none => []
        else []
    | none => []
  let resolutionScore : List ℚ :=
    match meta.width, meta.height with
    | some w1, some h1 =>
        if w1 ≠ 0 ∧ h1 ≠ 0 ∧ msg.messageText ≠ "" then
          match find_json_nat "width" msg.messageText,
                find_json_nat "height" msg.messageText with
          | some w2, some h2 =>
              let widthSimilarity : ℚ :=
                1 - (abs_diff w1 w2 : ℚ) / (max w1 w2 : ℚ)
              let heightSimilarity : ℚ :=
                1 - (abs_diff h1 h2 : ℚ) / (max h1 h2 : ℚ)
              [(widthSimilarity + heightSimilarity) / 2 * (3/10)]
          | _, _ => []
        else []
    | _, _ => []
  let sizeScore : List ℚ :=
    match meta.fileSize, msg.fileSize with
    | some s1, some s2 =>
        if s1 ≠ 0 ∧ s2 ≠ 0 then
          [max 0 (1 - (abs_diff s1 s2 : ℚ) / (max s1 s2 : ℚ)) * (1/5)]
        else []
    | _, _ => []
  let scores := durationScore ++ resolutionScore ++ sizeScore
  let total := scores.foldl (· + ·) 0
  (total ≥ threshold, total)

/-- The f-string `f'"duration": <target>'` used in the SQL LIKE
pre-filter (one literal space after the colon). -/
def duration_like_pattern (target : Nat) : String :=
  "\"duration\": " ++ toString target

/-- The in-scope candidate query of `_check_video_duplicate`: video rows
of the same channel, not already duplicates, whose stored text contains
one of the duration patterns for `d-1`, `d`, `d+1`; limited to 20. -/
def video_duplicate_candidates (d : Nat) (channelId : Nat)
    (db : List MsgRec) : List MsgRec :=
  (db.filter (fun m =>
    m.mediaType = some MediaType.video ∧ m.channelId = channelId ∧
    m.status ≠ MessageStatus.duplicate ∧
    (str_contains_sub m.messageText (duration_like_pattern (d - 1)) ∨
     str_contains_sub m.messageText (duration_like_pattern d) ∨
     str_contains_sub m.messageText (duration_like_pattern (d + 1))))).take 20

/-- The candidate loop of `_check_video_duplicate`: the first candidate
whose similarity reaches the configured threshold decides — at or above
the hard-coded 0.98 the item is marked duplicate, otherwise it is
flagged for manual review with the fetch proceeding. -/
def video_duplicate_loop (threshold : ℚ) (meta : FileMetadata) :
    List MsgRec → Option ScreenResult
  | [] => none
  | m :: ms =>
      let info := calculate_video_similarity_meta threshold meta m
      if info.1 then
        if info.2 ≥ 98/100 then
          some ⟨true, some false, none, "视频高度相似", some m.id, some info.2,
            some "video_metadata", none⟩
        else if info.2 ≥ threshold then
          some ⟨false, some true, some true, "视频可能重复，需要人工审核",
            some m.id, some info.2, some "video_metadata_similar", none⟩
        else video_duplicate_loop threshold meta ms
      else video_duplicate_loop threshold meta ms

/-- `MetadataDeduplicator._check_video_duplicate`; `dbExc` is `some e`
when the database session raises (the local handler returns a bare
non-duplicate dict, without a `should_download` key). -/
def check_video_duplicate (threshold : ℚ) (meta : FileMetadata)
    (channelId : Nat) (db : List MsgRec) (dbExc : Option String) :
    ScreenResult :=
  match meta.duration with
  | none => ScreenResult.bare false "视频没有时长信息"
  | some d =>
      if d = 0 then ScreenResult.bare false "视频没有时长信息"
      else
        match dbExc with
        | some e => ScreenResult.bare false ("检测出错: " ++ e)
        | none =>
            match video_duplicate_loop threshold meta
                (video_duplicate_candidates d channelId db) with
            | some r => r
            | none => ScreenResult.bare false "未发现相似视频"

/-- `MetadataDeduplicator._check_image_duplicate`: image rows of the same
channel with size within ±10%, first one within 5% declares a duplicate
(fixed score 0.95). -/
def check_image_duplicate (meta : FileMetadata) (channelId : Nat)
    (db : List MsgRec) (dbExc : Option String) : ScreenResult :=
  let width := py_or_nat meta.imageWidth meta.width
  let height := py_or_nat meta.imageHeight meta.height
  match width, height, meta.fileSize with
  | some w, some h, some fs =>
      if w = 0 ∨ h = 0 ∨ fs = 0 then
        ScreenResult.bare false "图片元数据不完整"
      else
        match dbExc with
        | some e => ScreenResult.bare false ("检测出错: " ++ e)
        | none =>
            let candidates := (db.filter (fun m =>
              m.mediaType = some MediaType.image && m.channelId = channelId &&
              m.status ≠ MessageStatus.duplicate &&
              (match m.fileSize with
               | some s => decide (9 * fs / 10 ≤ s ∧ s ≤ 11 * fs / 10)
               | none => false))).take 10
            match candidates.find? (fun m =>
                match m.fileSize with
                | some s => decide (s ≠ 0 ∧ (abs_diff s fs : ℚ) / (fs : ℚ) < 1/20)
                | none => false) with
            | some m =>
                ⟨true, some false, none, "图片尺寸和大小高度相似", some m.id,
                  some (95/100), some "image_metadata", none⟩
            | none => ScreenResult.bare false "未发现相似图片"
  | _, _, _ => ScreenResult.bare false "图片元数据不完整"

/-- `MetadataDeduplicator._check_file_duplicate`: exact name+size+channel
match among non-duplicates; `scalar_one_or_none` raises when more than
one row matches, which the local handler turns into a bare error dict. -/
def check_file_duplicate (meta : FileMetadata) (channelId : Nat)
    (db : List MsgRec) (dbExc : Option String) : ScreenResult :=
  match meta.fileName, meta.fileSize with
  | some name, some fs =>
      if name = "" ∨ fs = 0 then ScreenResult.bare false "文件信息不完整"
      else
        match dbExc with
        | some e => ScreenResult.bare false ("检测出错: " ++ e)
        | none =>
            let matchRows := db.filter (fun m =>
              m.fileName = some name ∧ m.fileSize = some fs ∧
              m.channelId = channelId ∧ m.status ≠ MessageStatus.duplicate)
            match matchRows with
            | [] => ScreenResult.bare false "未发现重复文件"
            | [m] =>
                ⟨true, some false, none, "文件名和大小完全相同", some m.id,
                  some 1, some "file_exact", none⟩
            | _ => ScreenResult.bare false "检测出错: MultipleResultsFound"
  | _, _ => ScreenResult.bare false "文件信息不完整"

/-- Exception injection points of `check_duplicate_by_metadata`: each
inner check's database session, plus the (otherwise unreachable)
top-level handler. -/
structure MetaScreenEnv where
  topExc : Option String
  videoDbExc : Option String
  imageDbExc : Option String
  fileDbExc : Option String
deriving DecidableEq, Repr

def MetaScreenEnv.clean : MetaScreenEnv := ⟨none, none, none, none⟩

/-- `MetadataDeduplicator.check_duplicate_by_metadata`: fail-open dict
when extraction yields nothing, otherwise dispatch on the media kind;
the top-level handler returns an explicit fail-open dict with
`should_download=True`. -/
def check_duplicate_by_metadata (threshold : ℚ)
    (extraction : Option FileMetadata) (channelId : Nat)
    (db : List MsgRec) (env : MetaScreenEnv) : ScreenResult :=
  match env.topExc with
  | some e =>
      ⟨false, some true, none, "检测出错，默认下载: " ++ e, none, none, none,
        some e⟩
  | none =>
      match extraction with
      | none => ⟨false, some true, none, "无法提取文件元数据", none, none,
          none, none⟩
      | some meta =>
          match meta.mediaType with
          | some MediaType.video =>
              check_video_duplicate threshold meta channelId db env.videoDbExc
          | some MediaType.image =>
              check_image_duplicate meta channelId db env.imageDbExc
          | _ => check_file_duplicate meta channelId db env.fileDbExc

/-! ## Pre-download deduplicator
(`src/deduplicator/pre_download_deduplicator.py`) -/

/-- The aspects of an inbound Telegram message the pre-download screen
reads directly. -/
structure TgMessage where
  id : Nat
  text : String
  forwardChannelPost : Option Nat
deriving DecidableEq, Repr

/-- The file-info dict `_extract_telegram_file_info` builds. -/
structure FileInfo where
  messageId : Nat
  messageText : String
  fileName : Option String
  fileSize : Option Nat
  telegramFileId : Option String
  mediaType : Option MediaType
deriving DecidableEq, Repr

/-- `PreDownloadDeduplicator._check_by_file_size_and_name`: exact
name+size match in the channel among non-duplicates; the first stored
row is taken as the original. -/
def check_by_file_size_and_name (fileInfo : FileInfo) (channelId : Nat)
    (db : List MsgRec) (dbExc : Option String) : ScreenResult :=
  match fileInfo.fileName, fileInfo.fileSize with
  | some name, some fs =>
      if name = "" ∨ fs = 0 then
        ScreenResult.bare false "缺少文件名或大小信息"
      else
        match dbExc with
        | some e => ScreenResult.bare false ("检查出错: " ++ e)
        | none =>
            match db.filter (fun m =>
                m.fileName = some name ∧ m.fileSize = some fs ∧
                m.channelId = channelId ∧
                m.status ≠ MessageStatus.duplicate) with
            | [] => ScreenResult.bare false "文件名和大小检查通过"
            | m :: _ =>
                ⟨true, some false, none, "文件名和大小完全相同", some m.id,
                  some 1, some "file_name_size", none⟩
  | _, _ => ScreenResult.bare false "缺少文件名或大小信息"

/-- `PreDownloadDeduplicator._check_by_telegram_file_id`: rows whose
text contains the Telegram file id (limit 10), confirmed by equal
declared size and media kind. -/
def check_by_telegram_file_id (fileInfo : FileInfo) (db : List MsgRec)
    (dbExc : Option String) : ScreenResult :=
  match fileInfo.telegramFileId with
  | none => ScreenResult.bare false "没有Telegram文件ID"
  | some fid =>
      if fid = "" then ScreenResult.bare false "没有Telegram文件ID"
      else
        match dbExc with
        | some e => ScreenResult.bare false ("检查出错: " ++ e)
        | none =>
            let candidates := (db.filter (fun m =>
              str_contains_sub m.messageText fid ∧
              m.status ≠ MessageStatus.duplicate)).take 10
            match candidates.find? (fun m =>
                m.fileSize = fileInfo.fileSize ∧
                m.mediaType = fileInfo.mediaType) with
            | some m =>
                ⟨true, some false, none, "Telegram文件ID相同", some m.id,
                  some 1, some "telegram_file_id", none⟩
            | none => ScreenResult.bare false "Telegram文件ID检查通过"

/-- Python `str.lower()` (ASCII case folding). -/
def py_lower (s : String) : String := String.mk (s.data.map Char.toLower)

/-- One step of whitespace tokenisation, consumed right to left: a
whitespace character closes the current token, any other character
extends it. -/
def split_ws_fold (c : Char) (acc : List (List Char)) : List (List Char) :=
  if c.isWhitespace then [] :: acc
  else
    match acc with
    | [] => [[c]]
    | t :: ts => (c :: t) :: ts

/-- Python `str.split()` (no argument): the maximal runs of
non-whitespace characters, with no empty tokens. -/
def py_split (s : String) : List String :=
  ((s.data.foldr split_ws_fold []).filter (fun t => !t.isEmpty)).map
    (fun t => String.mk t)

/-- `text.lower().split()` read as a set: the distinct lower-cased
whitespace tokens. -/
def lower_token_set (text : String) : List String :=
  (py_split (py_lower text)).dedup

/-- `PreDownloadDeduplicator._calculate_text_similarity`: Jaccard
similarity of the lower-cased whitespace-token sets. -/
def calculate_text_similarity (text1 text2 : String) : ℚ :=
  let words1 := lower_token_set text1
  let words2 := lower_token_set text2
  if words1.isEmpty ∨ words2.isEmpty then 0
  else
    let intersectionSize := (words1.filter (fun w => w ∈ words2)).length
    let unionSize := (words1 ++ words2.filter (fun w => w ∉ words1)).length
    if unionSize > 0 then (intersectionSize : ℚ) / (unionSize : ℚ) else 0

/-- The keyword extraction of `_find_similar_text_message`: whitespace
tokens longer than 3 characters (`word.strip()` is the identity on
`split()` tokens), at most 5 of them. -/
def extract_keywords (text : String) : List String :=
  ((py_split text).filter (fun w => w.length > 3)).take 5

/-- The keyword/candidate loop of `_find_similar_text_message`: for each
keyword in order, at most 5 in-scope rows containing the keyword are
compared; the first candidate with text longer than 20 characters and
Jaccard similarity strictly above 0.8 is returned. -/
def text_similarity_loop (text : String) (channelId : Nat)
    (db : List MsgRec) : List String → Option MsgRec
  | [] => none
  | keyword :: rest =>
      let msgs := (db.filter (fun m =>
        str_contains_sub m.messageText keyword ∧ m.channelId = channelId ∧
        m.status ≠ MessageStatus.duplicate)).take 5
      match msgs.find? (fun m =>
          m.messageText ≠ "" ∧ m.messageText.length > 20 ∧
          calculate_text_similarity text m.messageText > 8/10) with
      | some m => some m
      | none => text_similarity_loop text channelId db rest

/-- `PreDownloadDeduplicator._find_similar_text_message`. -/
def find_similar_text_message (text : String) (channelId : Nat)
    (db : List MsgRec) (dbExc : Option String) : Option MsgRec :=
  match dbExc with
  | some _ => none
  | none => text_similarity_loop text channelId db (extract_keywords text)

/-- `PreDownloadDeduplicator._check_by_message_content`: a forwarded
message whose origin id is already stored as a non-duplicate is a
duplicate; otherwise text longer than 20 characters is screened by
keyword/Jaccard similarity. -/
def check_by_message_content (tg : TgMessage) (channelId : Nat)
    (db : List MsgRec) (dbExc : Option String) (textDbExc : Option String) :
    ScreenResult :=
  match dbExc with
  | some e => ScreenResult.bare false ("检查出错: " ++ e)
  | none =>
      let forwardHit : Option ScreenResult :=
        match tg.forwardChannelPost with
        | none => none
        | some originId =>
            match db.filter (fun m =>
                m.messageId = originId ∧
                m.status ≠ MessageStatus.duplicate) with
            | [] => none
            | [m] =>
                some ⟨true, some false, none, "转发的消息已存在", some m.id,
                  some 1, some "forwarded_message", none⟩
            | _ => some (ScreenResult.bare false
                "检查出错: MultipleResultsFound")
      match forwardHit with
      | some r => r
      | none =>
          if tg.text ≠ "" ∧ tg.text.length > 20 then
            match find_similar_text_message tg.text channelId db textDbExc with
            | some m =>
                ⟨true, some false, none, "消息文本高度相似", some m.id,
                  some (9/10), some "similar_text", none⟩
            | none => ScreenResult.bare false "消息内容检查通过"
          else ScreenResult.bare false "消息内容检查通过"

/-- Exception injection points of `check_duplicate_before_download`. -/
structure PreScreenEnv where
  topExc : Option String
  nameSizeDbExc : Option String
  fileIdDbExc : Option String
  contentDbExc : Option String
  textDbExc : Option String
deriving DecidableEq, Repr

def PreScreenEnv.clean : PreScreenEnv := ⟨none, none, none, none, none⟩

/-- `PreDownloadDeduplicator.check_duplicate_before_download`: runs the
three checks, returns the first one reporting a duplicate, otherwise an
explicit fail-open dict; extraction failure and the top-level handler
also fail open with `should_download=True`. -/
def check_duplicate_before_download (tg : TgMessage)
    (extraction : Option FileInfo) (channelId : Nat) (db : List MsgRec)
    (env : PreScreenEnv) : ScreenResult :=
  match env.topExc with
  | some e =>
      ⟨false, some true, none, "检测出错，默认下载: " ++ e, none, none, none,
        some e⟩
  | none =>
      match extraction with
      | none =>
          ⟨false, some true, none, "无法提取文件信息", none, none, none, none⟩
      | some fileInfo =>
          let c1 := check_by_file_size_and_name fileInfo channelId db
            env.nameSizeDbExc
          let c2 := check_by_telegram_file_id fileInfo db env.fileIdDbExc
          let c3 := check_by_message_content tg channelId db env.contentDbExc
            env.textDbExc
          if c1.isDuplicate then c1
          else if c2.isDuplicate then c2
          else if c3.isDuplicate then c3
          else ⟨false, some true, none, "未发现重复，可以下载", none, none,
            none, none⟩

/-! ## Video deduplicator (`src/deduplicator/video_deduplicator.py`) -/

/-- The middle-frame colour histogram (`color_histogram`): a key is
present in the JSON dict exactly when the corresponding field is
`some`. -/
structure ColorHistogram where
  red : Option (List ℚ)
  green : Option (List ℚ)
  blue : Option (List ℚ)
deriving DecidableEq, Repr

/-- The fields of the feature dict that `calculate_video_similarity`
reads (`fps`, `frame_count` and the audio fields are extracted but never
used by the similarity computation). -/
structure VideoFeatures where
  width : Option ℚ
  height : Option ℚ
  duration : Option ℚ
  frameHashes : List String
  avgBrightness : Option ℚ
  avgContrast : Option ℚ
  colorHistogram : Option ColorHistogram
deriving DecidableEq, Repr

/-- `VideoDeduplicator._calculate_hash_similarity`: character-level
Hamming similarity of two equal-length hash strings. -/
def video_hash_similarity (hash1 hash2 : String) : ℚ :=
  if hash1 = "" ∨ hash2 = "" ∨ hash1.length ≠ hash2.length then 0
  else
    let hammingDistance :=
      ((hash1.toList.zip hash2.toList).filter (fun p => p.1 ≠ p.2)).length
    1 - (hammingDistance : ℚ) / (hash1.length : ℚ)

/-- Arithmetic mean (`np.mean`). -/
def rat_mean (l : List ℚ) : ℚ :=
  if l.isEmpty then 0 else l.foldl (· + ·) 0 / (l.length : ℚ)

/-- `VideoDeduplicator._calculate_histogram_similarity`: mean of the
per-channel correlation coefficients, skipping channels missing on
either side and `NaN` correlations (`corr _ _ = none`); `corr` is
numpy's `corrcoef`, an external call. -/
def histogram_similarity (corr : List ℚ → List ℚ → Option ℚ)
    (hist1 hist2 : ColorHistogram) : ℚ :=
  let channel : Option (List ℚ) → Option (List ℚ) → List ℚ :=
    fun c1 c2 =>
      match c1, c2 with
      | some l1, some l2 =>
          match corr l1 l2 with
          | some v => [v]
          | none => []
      | _, _ => []
  let similarities := channel hist1.red hist2.red ++
    channel hist1.green hist2.green ++ channel hist1.blue hist2.blue
  if similarities.isEmpty then 0 else rat_mean similarities

/-- The individual weighted terms of
`VideoDeduplicator.calculate_video_similarity`, one per signal; a term
is the empty list when the signal is missing (falsy) on either side. -/
def video_width_score (f1 f2 : VideoFeatures) : List ℚ :=
  match f1.width, f2.width with
  | some a, some b =>
      if a ≠ 0 ∧ b ≠ 0 then [(1 - |a - b| / max a b) * (1/10)] else []
  | _, _ => []

def video_height_score (f1 f2 : VideoFeatures) : List ℚ :=
  match f1.height, f2.height with
  | some a, some b =>
      if a ≠ 0 ∧ b ≠ 0 then [(1 - |a - b| / max a b) * (1/10)] else []
  | _, _ => []

def video_duration_score (f1 f2 : VideoFeatures) : List ℚ :=
  match f1.duration, f2.duration with
  | some a, some b =>
      if a ≠ 0 ∧ b ≠ 0 ∧ max a b > 0 then
        [(1 - min (|a - b| / max a b) 1) * (1/5)]
      else []
  | _, _ => []

def video_frame_hash_score (f1 f2 : VideoFeatures) : List ℚ :=
  if f1.frameHashes.isEmpty ∨ f2.frameHashes.isEmpty then []
  else
    let hashSimilarities := f1.frameHashes.flatMap (fun h1 =>
      f2.frameHashes.map (fun h2 => video_hash_similarity h1 h2))
    if hashSimilarities.isEmpty then []
    else [rat_mean hashSimilarities * (2/5)]

def video_brightness_score (f1 f2 : VideoFeatures) : List ℚ :=
  match f1.avgBrightness, f2.avgBrightness with
  | some a, some b => [(1 - |a - b| / 255) * (1/10)]
  | _, _ => []

def video_contrast_score (f1 f2 : VideoFeatures) : List ℚ :=
  match f1.avgContrast, f2.avgContrast with
  | some a, some b => [(1 - |a - b| / 255) * (1/10)]
  | _, _ => []

def video_histogram_score (corr : List ℚ → List ℚ → Option ℚ)
    (f1 f2 : VideoFeatures) : List ℚ :=
  match f1.colorHistogram, f2.colorHistogram with
  | some h1, some h2 => [histogram_similarity corr h1 h2 * (1/10)]
  | _, _ => []

/-- `VideoDeduplicator.calculate_video_similarity`: the similarity
scores list built signal by signal. -/
def video_similarity_scores (corr : List ℚ → List ℚ → Option ℚ)
    (f1 f2 : VideoFeatures) : List ℚ :=
  video_width_score f1 f2 ++ video_height_score f1 f2 ++
  video_duration_score f1 f2 ++ video_frame_hash_score f1 f2 ++
  video_brightness_score f1 f2 ++ video_contrast_score f1 f2 ++
  video_histogram_score corr f1 f2

/-- `VideoDeduplicator.calculate_video_similarity`: the plain sum of the
collected weighted terms, clamped to [0, 1]; 0 when no signal was
comparable. -/
def calculate_video_similarity (corr : List ℚ → List ℚ → Option ℚ)
    (f1 f2 : VideoFeatures) : ℚ :=
  let scores := video_similarity_scores corr f1 f2
  if scores.isEmpty then 0
  else min 1 (max 0 (scores.foldl (· + ·) 0))

/-- The value of a `content_hash` column as seen by the video module:
a JSON blob that decodes to a feature dict, or one that raises
`JSONDecodeError`. -/
inductive VideoBlob where
  | features (f : VideoFeatures)
  | invalid
deriving DecidableEq, Repr

/-- The `Message` columns the video deduplicator reads. -/
structure VMsg where
  id : Nat
  mediaType : Option MediaType
  filePath : Option String
  contentHash : Option VideoBlob
  status : MessageStatus
  isDuplicate : Bool
  originalMessageId : Option Nat
  createdAt : Nat
deriving DecidableEq, Repr

structure VideoDb where
  messages : List VMsg
  duplicateRecords : List DuplicateRecordRow
deriving DecidableEq, Repr

def insert_vpair_desc (p : VMsg × ℚ) : List (VMsg × ℚ) → List (VMsg × ℚ)
  | [] => [p]
  | x :: xs => if p.2 > x.2 then p :: x :: xs else x :: insert_vpair_desc p xs

def sort_vpairs_desc (l : List (VMsg × ℚ)) : List (VMsg × ℚ) :=
  l.foldr insert_vpair_desc []

/-- `VideoDeduplicator.find_similar_videos`: every stored video row with
a content hash and non-duplicate status whose decoded features score at
or above the threshold, sorted by descending similarity; rows whose
blob fails to decode are skipped. -/
def find_similar_videos (corr : List ℚ → List ℚ → Option ℚ)
    (threshold : ℚ) (features : VideoFeatures) (db : VideoDb) :
    List (VMsg × ℚ) :=
  let rows := db.messages.filter (fun m =>
    m.mediaType = some MediaType.video ∧ m.contentHash ≠ none ∧
    m.status ≠ MessageStatus.duplicate)
  let scored := rows.foldr
    (fun m acc =>
      match m.contentHash with
      | some (.features f) =>
          let similarity := calculate_video_similarity corr features f
          if similarity ≥ threshold then (m, similarity) :: acc else acc
      | _ => acc)
    []
  sort_vpairs_desc scored

/-- `VideoDeduplicator.detect_video_duplicates`. -/
def detect_video_duplicates (corr : List ℚ → List ℚ → Option ℚ)
    (threshold : ℚ) (message : VMsg) (db : VideoDb) : List (VMsg × ℚ) :=
  if message.mediaType ≠ some MediaType.video then []
  else
    match message.contentHash with
    | none => []
    | some .invalid => []
    | some (.features f) =>
        (find_similar_videos corr threshold f db).filter
          (fun p => p.1.id ≠ message.id)

/-- `VideoDeduplicator.process_video_deduplication`: similar videos are
only counted (`duplicates_processed` stays 0, "暂不自动标记，需要人工确认");
the sole database write is storing freshly extracted features
(`extracted` is the outcome of `extract_video_features`). -/
def process_video_deduplication (corr : List ℚ → List ℚ → Option ℚ)
    (threshold : ℚ) (extracted : Option VideoFeatures) (message : VMsg)
    (db : VideoDb) : ProcessResult × VideoDb :=
  if message.mediaType ≠ some MediaType.video then
    (⟨false, "不是视频消息", 0, none⟩, db)
  else
    match message.filePath with
    | none => (⟨false, "消息没有文件路径", 0, none⟩, db)
    | some _ =>
      let afterFeatures : Option (VMsg × VideoDb) :=
        match message.contentHash with
        | some _ => some (message, db)
        | none =>
            match extracted with
            | none => none
            | some f =>
                let db' : VideoDb :=
                  { db with messages := db.messages.map (fun m =>
                      if m.id = message.id then
                        { m with contentHash := some (.features f) }
                      else m) }
                let refetched :=
                  ((db'.messages.find? (fun m => m.id = message.id)).getD
                    { message with contentHash := some (.features f) })
                some (refetched, db')
      match afterFeatures with
      | none => (⟨false, "无法提取视频特征", 0, none⟩, db)
      | some (message', db') =>
          let duplicates := detect_video_duplicates corr threshold message' db'
          if duplicates.isEmpty then
            (⟨true, "未发现相似视频", 0, none⟩, db')
          else
            (⟨true, "发现相似视频", duplicates.length, some 0⟩, db')

/-! ## Cleanup (`DeduplicationManager.cleanup_duplicate_files`,
`src/deduplicator/dedup_manager.py`)

`dedup_manager.py` imports `asyncio`, typing, `datetime`, the database
manager, models, settings, the logger mixin, the four deduplicators and
`sqlalchemy.select` — and nothing else.  The name `Path` used inside
`cleanup_duplicate_files` is therefore unbound in that module: the
statement `file_path = Path(msg.file_path)` raises `NameError` whenever
`msg.file_path` is truthy, and the per-file `except` records it as an
error entry. -/

/-- The duplicate rows and on-disk situation the cleanup loop sees. -/
structure CleanupMsg where
  id : Nat
  filePath : Option String
  onDisk : Bool
  sizeOnDisk : Nat
deriving DecidableEq, Repr

structure CleanupResult where
  success : Bool
  deletedFiles : Nat
  spaceFreedBytes : Nat
  errors : List String
  error : Option String
deriving DecidableEq, Repr

/-- One iteration of the cleanup loop: with `Path` unbound, a truthy
`file_path` raises `NameError` before the existence check can run; a
falsy `file_path` skips the body silently. -/
def cleanup_file_step (acc : Nat × Nat × List String) (msg : CleanupMsg) :
    Nat × Nat × List String :=
  match msg.filePath with
  | some p =>
      if p = "" then acc
      else (acc.1, acc.2.1,
        acc.2.2 ++ ["删除文件失败 " ++ p ++ ": NameError: name Path is not defined"])
  | none => acc

/-- `DeduplicationManager.cleanup_duplicate_files`. -/
def cleanup_duplicate_files (confirm : Bool)
    (duplicateMessages : List CleanupMsg) : CleanupResult :=
  if ¬ confirm then
    ⟨false, 0, 0, [], some "需要确认删除操作"⟩
  else
    let acc := duplicateMessages.foldl cleanup_file_step (0, 0, [])
    ⟨true, acc.1, acc.2.1, acc.2.2.take 10, none⟩

/-! ## Concrete inputs used by the counterexamples and witnesses -/

/-- Three messages queued with priorities 1, 5, 3 on an initially empty
download manager. -/
def demo_dl_msg (i : Nat) : DlMsg := ⟨i, 100 + i, 1, "clip", some 1048576⟩

def demo_queue_state : DMState :=
  (add_download_task
    (add_download_task
      (add_download_task DMState.init (demo_dl_msg 1) 1).2
      (demo_dl_msg 2) 5).2
    (demo_dl_msg 3) 3).2

/-- A fixed stand-in for the hashlib digests. -/
def demo_hashlib : HashLib :=
  ⟨fun c => "md5-" ++ toString c.length,
   fun c => "sha1-" ++ toString c.length,
   fun c => "sha256-" ++ toString c.length⟩

/-- Ten duplicate rows with recorded file paths; row 7 is missing on
disk. -/
def demo_cleanup_rows : List CleanupMsg :=
  (List.range 10).map (fun i =>
    ⟨i + 1, some ("/data/file" ++ toString (i + 1)), i + 1 ≠ 7, 1000⟩)

/-- The duplicate record the hash keep-earliest loop writes for one
detected pair: the strictly earlier creation timestamp becomes the
original side. -/
def hash_pair_record (message : MsgRec) (p : MsgRec × ℚ) :
    DuplicateRecordRow :=
  if message.createdAt < p.1.createdAt then
    ⟨message.id, p.1.id, p.2, "hash", "keep_original", "文件哈希值完全相同"⟩
  else
    ⟨p.1.id, message.id, p.2, "hash", "keep_original", "文件哈希值完全相同"⟩

/-- Likewise for the image keep-earliest loop. -/
def image_pair_record (message : MsgRec) (p : MsgRec × ℚ) :
    DuplicateRecordRow :=
  if message.createdAt < p.1.createdAt then
    ⟨message.id, p.1.id, p.2, "image_hash", "keep_original", "图片感知哈希相似度"⟩
  else
    ⟨p.1.id, message.id, p.2, "image_hash", "keep_original", "图片感知哈希相似度"⟩

/-- Two stored rows with the same content digest: `demo_msg_a` was
created at t=0, `demo_msg_b` at t=5; detection is triggered by the later
row `demo_msg_b`. -/
def demo_msg_a : MsgRec :=
  ⟨1, 11, 1, "", some MediaType.image, some "a.jpg", some 10, some "/a",
    some "digest", some "feadbeefdeadbeef", MessageStatus.completed, false,
    none, 0⟩

def demo_msg_b : MsgRec :=
  ⟨2, 12, 1, "", some MediaType.image, some "b.jpg", some 10, some "/b",
    some "digest", some "feadbeefdeadbeee", MessageStatus.completed, false,
    none, 5⟩

def demo_dedup_db : Db := ⟨[demo_msg_a, demo_msg_b], []⟩

/-- Metadata of a video item carrying only a duration, used to drive
the video check into its exception handler. -/
def demo_exc_meta : FileMetadata :=
  ⟨1, "", none, none, some MediaType.video, some 10, none, none, none, none,
    none⟩

/-- An inbound message that is not a forward and has no usable text. -/
def demo_plain_tg : TgMessage := ⟨1, "", none⟩

/-- Extracted file info with no file name and no size. -/
def demo_empty_fileinfo : FileInfo :=
  ⟨1, "", none, none, none, some MediaType.document⟩

/-- Metadata of an inbound video: duration 10 s, 1920x1080, declared
size 100 bytes. -/
def demo_video_meta : FileMetadata :=
  ⟨10, "", some "v.mp4", some 100, some MediaType.video, some 10, some 1920,
    some 1080, none, none, none⟩

/-- A stored in-scope video row with identical duration and resolution
and declared size 80: combined metadata similarity
0.5 + 0.3 + 0.8 * 0.2 = 0.96. -/
def demo_video_candidate : MsgRec :=
  ⟨7, 107, 1, "\"duration\": 10, \"width\": 1920, \"height\": 1080",
    some MediaType.video, some "v.mp4", some 80, some "/x", none, none,
    MessageStatus.completed, false, none, 0⟩

/-- An item text with exactly one keyword longer than 3 characters and
ten distinct tokens. -/
def demo_item_text : String := "alpha aa1 aa2 aa3 aa4 aa5 aa6 aa7 aa8 aa9"

/-- A stored row sharing exactly 8 of the 10 tokens: Jaccard similarity
exactly 8/10 = 0.8, sitting on the threshold boundary. -/
def demo_boundary_row : MsgRec :=
  ⟨3, 30, 1, "alpha aa1 aa2 aa3 aa4 aa5 aa6 aa7", some MediaType.document,
    none, none, none, none, none, MessageStatus.completed, false, none, 0⟩

/-- A stored row sharing 9 of the 10 tokens: Jaccard similarity 9/10,
strictly above the threshold. -/
def demo_similar_row : MsgRec :=
  ⟨4, 40, 1, "alpha aa1 aa2 aa3 aa4 aa5 aa6 aa7 aa8", some MediaType.document,
    none, none, none, none, none, MessageStatus.completed, false, none, 0⟩

/-- The duplicate-relevant view of a video-module message row: id,
duplicate flag, status and original pointer (everything except the
feature blob the processing step may write). -/
def dup_view (m : VMsg) : Nat × Bool × MessageStatus × Option Nat :=
  (m.id, m.isDuplicate, m.status, m.originalMessageId)

/-- A stand-in for numpy `corrcoef` that always reports `NaN`. -/
def demo_corr : List ℚ → List ℚ → Option ℚ := fun _ _ => none

def demo_vfeatures : VideoFeatures :=
  ⟨some 1280, some 720, some 60, ["aaaa"], some 100, some 50, none⟩

def demo_vmsg : VMsg :=
  ⟨5, some MediaType.video, some "/v", some (.features demo_vfeatures),
    MessageStatus.completed, false, none, 3⟩

def demo_vdb : VideoDb := ⟨[demo_vmsg], []⟩

/-- A feature set in which only the width signal is present (as happens
when a stored feature blob lacks the other keys). -/
def width_only_features (w : ℚ) : VideoFeatures :=
  ⟨some w, none, none, [], none, none, none⟩

/-- A degenerate stand-in for the perceptual-hash library: every
`hex_to_hash`/distance call raises, so `calculate_hash_similarity`
takes its exception path and returns 0 without rational arithmetic. -/
def demo_imagelib : ImageLib := ⟨fun _ _ => .error "hex"⟩

end Caijibot

namespace Caijibot

/-! ## Theorems -/

/-- Claim C1: the spec promises priority-ordered dispatch (tasks queued
with priorities [1, 5, 3] on a pool of size 1 dispatch as 5, 3, 1), and
`add_download_task`'s own docstring says a larger number means higher
priority — but `download_queue` is a plain FIFO `asyncio.Queue`, so a
single worker dispatches the tasks in admission order 1, 5, 3. -/
theorem download_dispatch_ignores_priority :
    ((worker_dispatch_order demo_queue_state.downloadQueue).map
        DownloadTask.priority) = [1, 5, 3] ∧
    ((worker_dispatch_order demo_queue_state.downloadQueue).map
        DownloadTask.priority) ≠ [5, 3, 1] := by
  decide

/-- Claim C3: a `FloodWaitError` raised during the Telegram transfer is
swallowed by the blanket `except Exception` inside
`_download_file_from_telegram`, which returns `None`; the worker
therefore raises the plain "下载失败" exception, marks the task failed
and bumps the failed counter — the task is not re-queued and the worker
does not sleep the signalled duration.  (The `except FloodWaitError`
re-queue handler in `_execute_download_task` is unreachable from the
transfer path.) -/
theorem floodwait_during_transfer_marks_task_failed :
    ∀ (organize : String → Option String) (task : DownloadTask)
      (s : DMState) (w : Nat),
      execute_download_task (.floodWait w) organize task s =
        { s with
          stats := { s.stats with totalFailed := s.stats.totalFailed + 1 }
          activeDownloads :=
            s.activeDownloads.filter (fun kv => kv.1 ≠ task.message.id)
          downloadHistory := trim_history (s.downloadHistory ++
            [{ task with status := "failed", error := some "下载失败" }]) } := by
  intro organize task s w
  rfl

/-- Claim C10: for any algorithm name outside md5/sha1/sha256,
`calculate_file_hash` returns `None` for any path (existing or not)
while `calculate_content_hash` silently falls back to the MD5 digest of
the content. -/
theorem unsupported_algorithm_asymmetry :
    ∀ (hl : HashLib) (fileOnDisk : Option (List Nat)) (content : List Nat)
      (algorithm : String),
      algorithm ≠ "md5" → algorithm ≠ "sha1" → algorithm ≠ "sha256" →
      calculate_file_hash hl fileOnDisk algorithm = none ∧
      calculate_content_hash hl content algorithm = hl.md5 content := by
  intro hl fileOnDisk content algorithm h1 h2 h3
  constructor
  · cases fileOnDisk with
    | none => rfl
    | some c => simp [calculate_file_hash, h1, h2, h3]
  · simp [calculate_content_hash, h1, h2, h3]

theorem unsupported_algorithm_asymmetry_witness :
    calculate_file_hash demo_hashlib (some [1, 2, 3]) "sha512" = none ∧
    calculate_content_hash demo_hashlib [1, 2, 3] "sha512" =
      demo_hashlib.md5 [1, 2, 3] :=
  unsupported_algorithm_asymmetry demo_hashlib (some [1, 2, 3]) [1, 2, 3]
    "sha512" (by decide) (by decide) (by decide)

/-- The cleanup loop never changes the deleted-count or freed-space
accumulators. -/
theorem cleanup_fold_counts (rows : List CleanupMsg) :
    ∀ acc : Nat × Nat × List String,
      (rows.foldl cleanup_file_step acc).1 = acc.1 ∧
      (rows.foldl cleanup_file_step acc).2.1 = acc.2.1 := by
  induction rows with
  | nil => intro acc; exact ⟨rfl, rfl⟩
  | cons r rs ih =>
      intro acc
      have hstep : (cleanup_file_step acc r).1 = acc.1 ∧
          (cleanup_file_step acc r).2.1 = acc.2.1 := by
        unfold cleanup_file_step
        cases r.filePath with
        | none => exact ⟨rfl, rfl⟩
        | some p =>
            by_cases hp : p = "" <;> simp [hp]
      obtain ⟨h1, h2⟩ := ih (cleanup_file_step acc r)
      simp only [List.foldl_cons]
      exact ⟨h1.trans hstep.1, h2.trans hstep.2⟩

theorem mark_duplicate_row_records (db : Db) (o d : MsgRec) (s : ℚ)
    (t a r : String) :
    (mark_duplicate_row db o d s t a r).duplicateRecords =
      db.duplicateRecords ++ [⟨o.id, d.id, s, t, a, r⟩] := rfl

/-- The hash keep-earliest loop appends exactly one oriented record per
detected pair. -/
theorem hash_resolve_pairs_records (message : MsgRec) :
    ∀ (pairs : List (MsgRec × ℚ)) (db : Db),
      (hash_resolve_pairs message pairs db).2.duplicateRecords =
        db.duplicateRecords ++ pairs.map (hash_pair_record message) := by
  intro pairs
  induction pairs with
  | nil => intro db; simp [hash_resolve_pairs]
  | cons p ps ih =>
      intro db
      obtain ⟨dupMsg, similarity⟩ := p
      simp only [hash_resolve_pairs]
      rw [ih]
      by_cases h : message.createdAt < dupMsg.createdAt <;>
        simp [mark_as_duplicate, mark_duplicate_row, hash_pair_record, h]

/-- Likewise for the image keep-earliest loop. -/
theorem image_resolve_pairs_records (message : MsgRec) :
    ∀ (pairs : List (MsgRec × ℚ)) (db : Db),
      (image_resolve_pairs message pairs db).2.duplicateRecords =
        db.duplicateRecords ++ pairs.map (image_pair_record message) := by
  intro pairs
  induction pairs with
  | nil => intro db; simp [image_resolve_pairs]
  | cons p ps ih =>
      intro db
      obtain ⟨dupMsg, similarity⟩ := p
      simp only [image_resolve_pairs]
      rw [ih]
      by_cases h : message.createdAt < dupMsg.createdAt <;>
        simp [mark_image_as_duplicate, mark_duplicate_row, image_pair_record, h]

/-- Claim C5: whenever the hash or the image deduplicator resolves a
pair, the duplicate record it appends is `hash_pair_record` /
`image_pair_record` of the trigger and a detected candidate — and those
records always put the strictly earlier-created item on the original
(canonical) side, regardless of which item triggered detection. -/
theorem earliest_created_is_canonical :
    (∀ (fileDigest : Option String) (message : MsgRec) (db : Db),
      message.fileHash ≠ none →
      ∀ r ∈ (process_message_deduplication fileDigest message
          db).2.duplicateRecords,
        r ∈ db.duplicateRecords ∨
        r ∈ (detect_duplicates db message).map (hash_pair_record message)) ∧
    (∀ (message : MsgRec) (p : MsgRec × ℚ),
      (message.createdAt < p.1.createdAt →
        (hash_pair_record message p).originalMessageId = message.id ∧
        (hash_pair_record message p).duplicateMessageId = p.1.id) ∧
      (p.1.createdAt < message.createdAt →
        (hash_pair_record message p).originalMessageId = p.1.id ∧
        (hash_pair_record message p).duplicateMessageId = message.id)) ∧
    (∀ (il : ImageLib) (threshold : ℚ) (perceptualHash : Option String)
        (message : MsgRec) (db : Db),
      message.contentHash.getD "" ≠ "" →
      ∀ r ∈ (process_image_deduplication il threshold perceptualHash message
          db).2.duplicateRecords,
        r ∈ db.duplicateRecords ∨
        r ∈ (detect_image_duplicates il threshold db message).map
          (image_pair_record message)) ∧
    (∀ (message : MsgRec) (p : MsgRec × ℚ),
      (message.createdAt < p.1.createdAt →
        (image_pair_record message p).originalMessageId = message.id ∧
        (image_pair_record message p).duplicateMessageId = p.1.id) ∧
      (p.1.createdAt < message.createdAt →
        (image_pair_record message p).originalMessageId = p.1.id ∧
        (image_pair_record message p).duplicateMessageId = message.id)) := by
  refine ⟨?_, ?_, ?_, ?_⟩
  · intro fileDigest message db hh r hr
    cases hfh : message.fileHash with
    | none => exact absurd hfh hh
    | some h =>
        cases hfp : message.filePath with
        | none =>
            simp only [process_message_deduplication, hfp] at hr
            exact Or.inl hr
        | some p =>
            simp only [process_message_deduplication, hfp, hfh] at hr
            by_cases hemp : (detect_duplicates db message).isEmpty
            · simp only [hemp, if_true, ite_true] at hr
              exact Or.inl hr
            · simp only [hemp, if_false, ite_false, Bool.false_eq_true] at hr
              rw [hash_resolve_pairs_records] at hr
              rcases List.mem_append.mp hr with h1 | h2
              · exact Or.inl h1
              · exact Or.inr h2
  · intro message p
    constructor
    · intro hlt
      simp [hash_pair_record, hlt]
    · intro hlt
      have : ¬ message.createdAt < p.1.createdAt := by omega
      simp [hash_pair_record, this]
  · intro il threshold perceptualHash message db hh r hr
    cases hch : message.contentHash with
    | none => rw [hch] at hh; exact absurd rfl hh
    | some h =>
        rw [hch] at hh
        simp only [Option.getD_some] at hh
        by_cases hmt : message.mediaType = some MediaType.image
        · cases hfp : message.filePath with
          | none =>
              simp only [process_image_deduplication, hmt, hfp,
                ne_self_iff_false, if_false, ite_false,
                not_false_eq_true] at hr
              exact Or.inl hr
          | some p =>
              by_cases hemp :
                  (detect_image_duplicates il threshold db message).isEmpty
              · simp only [process_image_deduplication, hmt, hfp, hch, hh,
                  ne_self_iff_false, if_false, ite_false, not_false_eq_true,
                  hemp, if_true, ite_true] at hr
                exact Or.inl hr
              · simp only [process_image_deduplication, hmt, hfp, hch, hh,
                  ne_self_iff_false, if_false, ite_false, not_false_eq_true,
                  hemp, Bool.false_eq_true] at hr
                rw [image_resolve_pairs_records] at hr
                rcases List.mem_append.mp hr with h1 | h2
                · exact Or.inl h1
                · exact Or.inr h2
        · simp only [process_image_deduplication] at hr
          rw [if_pos hmt] at hr
          exact Or.inl hr
  · intro message p
    constructor
    · intro hlt
      simp [image_pair_record, hlt]
    · intro hlt
      have : ¬ message.createdAt < p.1.createdAt := by omega
      simp [image_pair_record, this]

/-- Witness for C5: the later-created `demo_msg_b` triggers both
detections against the earlier `demo_msg_a`; the records produced by
both pipelines have `demo_msg_a` (id 1) as the original. -/
theorem earliest_created_is_canonical_witness :
    ((⟨1, 2, 1, "hash", "keep_original", "文件哈希值完全相同"⟩ :
        DuplicateRecordRow) ∈ demo_dedup_db.duplicateRecords ∨
      (⟨1, 2, 1, "hash", "keep_original", "文件哈希值完全相同"⟩ :
        DuplicateRecordRow) ∈
        (detect_duplicates demo_dedup_db demo_msg_b).map
          (hash_pair_record demo_msg_b)) ∧
    ((hash_pair_record demo_msg_b (demo_msg_a, 1)).originalMessageId =
        demo_msg_a.id ∧
      (hash_pair_record demo_msg_b (demo_msg_a, 1)).duplicateMessageId =
        demo_msg_b.id) ∧
    ((⟨1, 2, 0, "image_hash", "keep_original", "图片感知哈希相似度"⟩ :
        DuplicateRecordRow) ∈ demo_dedup_db.duplicateRecords ∨
      (⟨1, 2, 0, "image_hash", "keep_original", "图片感知哈希相似度"⟩ :
        DuplicateRecordRow) ∈
        (detect_image_duplicates demo_imagelib 0 demo_dedup_db
          demo_msg_b).map (image_pair_record demo_msg_b)) ∧
    ((image_pair_record demo_msg_b (demo_msg_a, 0)).originalMessageId =
        demo_msg_a.id ∧
      (image_pair_record demo_msg_b (demo_msg_a, 0)).duplicateMessageId =
        demo_msg_b.id) := by
  obtain ⟨t1, t2, t3, t4⟩ := earliest_created_is_canonical
  refine ⟨?_, ?_, ?_, ?_⟩
  · exact t1 none demo_msg_b demo_dedup_db (by decide)
      ⟨1, 2, 1, "hash", "keep_original", "文件哈希值完全相同"⟩ (by decide)
  · exact (t2 demo_msg_b (demo_msg_a, 1)).2 (by decide)
  · exact t3 demo_imagelib 0 none demo_msg_b demo_dedup_db (by decide)
      ⟨1, 2, 0, "image_hash", "keep_original", "图片感知哈希相似度"⟩
      (by decide)
  · exact (t4 demo_msg_b (demo_msg_a, 0)).2 (by decide)

/-- Writing the extracted feature blob changes no row's duplicate view. -/
theorem vmsg_update_dup_view (mid : Nat) (f : VideoFeatures) (l : List VMsg) :
    (l.map (fun m =>
      if m.id = mid then { m with contentHash := some (.features f) }
      else m)).map dup_view = l.map dup_view := by
  induction l with
  | nil => rfl
  | cons x xs ih =>
      simp only [List.map_cons, ih, List.cons.injEq, and_true]
      by_cases h : x.id = mid <;> simp [dup_view, h]

/-- Claim C6: `process_video_deduplication` never auto-resolves: it
appends no duplicate record, changes no row's duplicate flag, status or
original pointer, always reports `duplicates_processed` as absent or 0,
and for a qualifying video item reports exactly the candidates at or
above the threshold (the length of `detect_video_duplicates`) in
`duplicates_found`. -/
theorem video_process_reports_but_never_resolves :
    ∀ (corr : List ℚ → List ℚ → Option ℚ) (threshold : ℚ)
      (extracted : Option VideoFeatures) (message : VMsg) (db : VideoDb),
      ((process_video_deduplication corr threshold extracted message
          db).2.duplicateRecords = db.duplicateRecords) ∧
      ((process_video_deduplication corr threshold extracted message
          db).2.messages.map dup_view = db.messages.map dup_view) ∧
      ((process_video_deduplication corr threshold extracted message
          db).1.duplicatesProcessed = none ∨
       (process_video_deduplication corr threshold extracted message
          db).1.duplicatesProcessed = some 0) ∧
      (message.mediaType = some MediaType.video → message.filePath ≠ none →
        message.contentHash ≠ none →
        (process_video_deduplication corr threshold extracted message
            db).1.duplicatesFound =
          (detect_video_duplicates corr threshold message db).length) := by
  intro corr threshold extracted message db
  by_cases hmt : message.mediaType = some MediaType.video
  · cases hfp : message.filePath with
    | none =>
        refine ⟨?_, ?_, ?_, ?_⟩ <;>
          simp [process_video_deduplication, hmt, hfp]
    | some p =>
        cases hch : message.contentHash with
        | some blob =>
            by_cases hemp : (detect_video_duplicates corr threshold message
                db).isEmpty
            · refine ⟨?_, ?_, ?_, ?_⟩ <;>
                simp [process_video_deduplication, hmt, hfp, hch, hemp,
                  List.isEmpty_iff.mp hemp]
            · refine ⟨?_, ?_, ?_, ?_⟩ <;>
                simp [process_video_deduplication, hmt, hfp, hch, hemp]
        | none =>
            cases hex : extracted with
            | none =>
                refine ⟨?_, ?_, ?_, ?_⟩ <;>
                  simp [process_video_deduplication, hmt, hfp, hch, hex]
            | some f =>
                refine ⟨?_, ?_, ?_, ?_⟩
                · simp [process_video_deduplication, hmt, hfp, hch, hex,
                    apply_ite (fun x : ProcessResult × VideoDb => x.2)]
                · simp only [process_video_deduplication, hmt, hfp, hch, hex,
                    ne_self_iff_false, if_false, ite_false, not_false_eq_true,
                    apply_ite (fun x : ProcessResult × VideoDb => x.2),
                    ite_self]
                  exact vmsg_update_dup_view message.id f db.messages
                · simp only [process_video_deduplication, hmt, hfp, hch, hex,
                    ne_self_iff_false, if_false, ite_false,
                    not_false_eq_true]
                  split_ifs <;> simp
                · simp [hch]
  · refine ⟨?_, ?_, ?_, ?_⟩ <;>
      simp [process_video_deduplication, hmt]

/-- Witness for C6 at a concrete video row with stored features. -/
theorem video_process_reports_but_never_resolves_witness :
    ((process_video_deduplication demo_corr (85/100) none demo_vmsg
        demo_vdb).2.duplicateRecords = demo_vdb.duplicateRecords) ∧
    ((process_video_deduplication demo_corr (85/100) none demo_vmsg
        demo_vdb).1.duplicatesProcessed = none ∨
     (process_video_deduplication demo_corr (85/100) none demo_vmsg
        demo_vdb).1.duplicatesProcessed = some 0) ∧
    ((process_video_deduplication demo_corr (85/100) none demo_vmsg
        demo_vdb).1.duplicatesFound =
      (detect_video_duplicates demo_corr (85/100) demo_vmsg
        demo_vdb).length) := by
  obtain ⟨h1, _, h3, h4⟩ := video_process_reports_but_never_resolves demo_corr
    (85/100) none demo_vmsg demo_vdb
  exact ⟨h1, h3, h4 (by decide) (by decide) (by decide)⟩

/-- Counterexample to C8 as stated: the claim's renormalisation clause
says two identical feature sets score 1.0 regardless of which signals
are present, but `calculate_video_similarity` does not renormalise —
two identical width-only feature sets score 0.1, the bare width
weight. -/
theorem identical_partial_features_not_score_one :
    calculate_video_similarity demo_corr (width_only_features 100)
      (width_only_features 100) = 1/10 ∧
    calculate_video_similarity demo_corr (width_only_features 100)
      (width_only_features 100) ≠ 1 := by
  have h : calculate_video_similarity demo_corr (width_only_features 100)
      (width_only_features 100) = 1/10 := by
    norm_num [calculate_video_similarity, video_similarity_scores,
      video_width_score, video_height_score, video_duration_score,
      video_frame_hash_score, video_brightness_score, video_contrast_score,
      video_histogram_score, width_only_features]
  refine ⟨h, ?_⟩
  rw [h]
  norm_num

/-- Claim C8 (amended): the similarity is the plain clamped sum of the
present signals' weighted terms — width 10%, height 10%, duration 20%,
frame hashes 40%, brightness 10%, contrast 10% (plus histogram 10% when
present) — with no renormalisation when signals are missing: an
identical width-only pair scores exactly 0.1. -/
theorem video_similarity_no_renormalization :
    (∀ (corr : List ℚ → List ℚ → Option ℚ)
       (w1 h1 d1 b1 c1 w2 h2 d2 b2 c2 : ℚ) (fh1 fh2 : List String),
       w1 ≠ 0 → w2 ≠ 0 → h1 ≠ 0 → h2 ≠ 0 → d1 ≠ 0 → d2 ≠ 0 →
       0 < max d1 d2 → fh1 ≠ [] → fh2 ≠ [] →
       calculate_video_similarity corr
           ⟨some w1, some h1, some d1, fh1, some b1, some c1, none⟩
           ⟨some w2, some h2, some d2, fh2, some b2, some c2, none⟩ =
         min 1 (max 0
           ((1 - |w1 - w2| / max w1 w2) * (1/10) +
            (1 - |h1 - h2| / max h1 h2) * (1/10) +
            (1 - min (|d1 - d2| / max d1 d2) 1) * (1/5) +
            rat_mean (fh1.flatMap (fun a =>
              fh2.map (fun b => video_hash_similarity a b))) * (2/5) +
            (1 - |b1 - b2| / 255) * (1/10) +
            (1 - |c1 - c2| / 255) * (1/10)))) ∧
    (∀ (corr : List ℚ → List ℚ → Option ℚ) (w : ℚ), w ≠ 0 →
       calculate_video_similarity corr (width_only_features w)
         (width_only_features w) = 1/10) := by
  constructor
  · intro corr w1 h1 d1 b1 c1 w2 h2 d2 b2 c2 fh1 fh2 hw1 hw2 hh1 hh2 hd1 hd2
      hdm hfh1 hfh2
    obtain ⟨a, as, rfl⟩ := List.exists_cons_of_ne_nil hfh1
    obtain ⟨b, bs, rfl⟩ := List.exists_cons_of_ne_nil hfh2
    simp only [calculate_video_similarity, video_similarity_scores,
      video_width_score, video_height_score, video_duration_score,
      video_frame_hash_score, video_brightness_score, video_contrast_score,
      video_histogram_score, hw1, hw2, hh1, hh2, hd1, hd2, hdm,
      ne_eq, not_false_eq_true, and_true, true_and, and_self, if_true,
      ite_true, List.isEmpty_cons, Bool.false_eq_true, or_self, if_false,
      ite_false, List.flatMap_cons, List.map_cons, List.cons_append,
      List.isEmpty_nil, List.append_nil, List.nil_append]
    simp only [List.foldl_cons, List.foldl_nil, List.isEmpty_eq_true,
      List.cons_ne_self]
    congr 1
    congr 1
    ring_nf
  · intro corr w hw
    norm_num [calculate_video_similarity, video_similarity_scores,
      video_width_score, video_height_score, video_duration_score,
      video_frame_hash_score, video_brightness_score, video_contrast_score,
      video_histogram_score, width_only_features, hw]

/-- Witness for the amended C8 at concrete feature values. -/
theorem video_similarity_no_renormalization_witness :
    calculate_video_similarity demo_corr
        ⟨some 1280, some 720, some 60, ["aaaa"], some 100, some 50, none⟩
        ⟨some 1280, some 720, some 60, ["aaab"], some 101, some 50, none⟩ =
      min 1 (max 0
        ((1 - |(1280 : ℚ) - 1280| / max 1280 1280) * (1/10) +
         (1 - |(720 : ℚ) - 720| / max 720 720) * (1/10) +
         (1 - min (|(60 : ℚ) - 60| / max 60 60) 1) * (1/5) +
         rat_mean (["aaaa"].flatMap (fun a =>
           ["aaab"].map (fun b => video_hash_similarity a b))) * (2/5) +
         (1 - |(100 : ℚ) - 101| / 255) * (1/10) +
         (1 - |(50 : ℚ) - 50| / 255) * (1/10))) ∧
    calculate_video_similarity demo_corr (width_only_features 100)
      (width_only_features 100) = 1/10 := by
  obtain ⟨t1, t2⟩ := video_similarity_no_renormalization
  constructor
  · exact t1 demo_corr 1280 720 60 100 50 1280 720 60 101 50 ["aaaa"] ["aaab"]
      (by norm_num) (by norm_num) (by norm_num) (by norm_num) (by norm_num)
      (by norm_num) (by rw [max_self]; norm_num) (by simp) (by simp)
  · exact t2 demo_corr 100 (by norm_num)

/-- Counterexample to C2 as stated: an exception raised inside the
metadata screen's per-type video check is caught by that check's own
handler, which returns a result dict that omits `should_download`
entirely — not one with `should_download=true` as the claim requires.
(`is_duplicate` is still false and nothing propagates.) -/
theorem metadata_inner_exception_omits_should_download :
    (check_duplicate_by_metadata (95/100) (some demo_exc_meta) 1 []
      ⟨none, some "boom", none, none⟩).shouldDownload = none ∧
    (check_duplicate_by_metadata (95/100) (some demo_exc_meta) 1 []
      ⟨none, some "boom", none, none⟩).isDuplicate = false := by
  exact ⟨rfl, rfl⟩

theorem name_size_check_dup_shape (fileInfo : FileInfo) (channelId : Nat)
    (db : List MsgRec) (dbExc : Option String) :
    (check_by_file_size_and_name fileInfo channelId db
      dbExc).isDuplicate = true →
    (check_by_file_size_and_name fileInfo channelId db
      dbExc).shouldDownload = some false := by
  unfold check_by_file_size_and_name
  cases fileInfo.fileName with
  | none => intro h; simp [ScreenResult.bare] at h
  | some name =>
      cases fileInfo.fileSize with
      | none => intro h; simp [ScreenResult.bare] at h
      | some fs =>
          dsimp only
          by_cases hx : name = "" ∨ fs = 0
          · rw [if_pos hx]; intro h; simp [ScreenResult.bare] at h
          · rw [if_neg hx]
            cases dbExc with
            | some e => intro h; simp [ScreenResult.bare] at h
            | none =>
                cases hf : db.filter (fun m =>
                    m.fileName = some name ∧ m.fileSize = some fs ∧
                    m.channelId = channelId ∧
                    m.status ≠ MessageStatus.duplicate) with
                | nil => intro h; simp [ScreenResult.bare] at h
                | cons m ms => intro _; rfl

theorem file_id_check_dup_shape (fileInfo : FileInfo) (db : List MsgRec)
    (dbExc : Option String) :
    (check_by_telegram_file_id fileInfo db dbExc).isDuplicate = true →
    (check_by_telegram_file_id fileInfo db dbExc).shouldDownload =
      some false := by
  unfold check_by_telegram_file_id
  cases fileInfo.telegramFileId with
  | none => intro h; simp [ScreenResult.bare] at h
  | some fid =>
      dsimp only
      by_cases hx : fid = ""
      · rw [if_pos hx]; intro h; simp [ScreenResult.bare] at h
      · rw [if_neg hx]
        cases dbExc with
        | some e => intro h; simp [ScreenResult.bare] at h
        | none =>
            cases hf : ((db.filter (fun m =>
                str_contains_sub m.messageText fid ∧
                m.status ≠ MessageStatus.duplicate)).take 10).find?
                (fun m => m.fileSize = fileInfo.fileSize ∧
                  m.mediaType = fileInfo.mediaType) with
            | none => intro h; simp [ScreenResult.bare] at h
            | some m => intro _; rfl

theorem content_check_dup_shape (tg : TgMessage) (channelId : Nat)
    (db : List MsgRec) (dbExc textDbExc : Option String) :
    (check_by_message_content tg channelId db dbExc
      textDbExc).isDuplicate = true →
    (check_by_message_content tg channelId db dbExc
      textDbExc).shouldDownload = some false := by
  unfold check_by_message_content
  cases dbExc with
  | some e => intro h; simp [ScreenResult.bare] at h
  | none =>
      dsimp only
      cases hfw : tg.forwardChannelPost with
      | some originId =>
          dsimp only
          cases hf : db.filter (fun m =>
              m.messageId = originId ∧
              m.status ≠ MessageStatus.duplicate) with
          | nil =>
              dsimp only
              by_cases hx : tg.text ≠ "" ∧ tg.text.length > 20
              · rw [if_pos hx]
                cases hsim : find_similar_text_message tg.text channelId db
                    textDbExc with
                | none => intro h; simp [ScreenResult.bare] at h
                | some m => intro _; rfl
              · rw [if_neg hx]; intro h; simp [ScreenResult.bare] at h
          | cons m ms =>
              cases ms with
              | nil => intro _; rfl
              | cons m' ms' => intro h; simp [ScreenResult.bare] at h
      | none =>
          dsimp only
          by_cases hx : tg.text ≠ "" ∧ tg.text.length > 20
          · rw [if_pos hx]
            cases hsim : find_similar_text_message tg.text channelId db
                textDbExc with
            | none => intro h; simp [ScreenResult.bare] at h
            | some m => intro _; rfl
          · rw [if_neg hx]; intro h; simp [ScreenResult.bare] at h

theorem video_check_exc_shape (threshold : ℚ) (meta : FileMetadata)
    (channelId : Nat) (db : List MsgRec) (e : String) :
    (check_video_duplicate threshold meta channelId db
      (some e)).isDuplicate = false ∧
    (check_video_duplicate threshold meta channelId db
      (some e)).shouldDownload = none := by
  unfold check_video_duplicate
  cases meta.duration with
  | none => exact ⟨rfl, rfl⟩
  | some d =>
      dsimp only
      by_cases hd : d = 0
      · rw [if_pos hd]; exact ⟨rfl, rfl⟩
      · rw [if_neg hd]; exact ⟨rfl, rfl⟩

/-- Claim C2 (amended): nothing propagates from either screen and every
exception path reports `is_duplicate=false`; the pre-download screen
always pairs a non-duplicate verdict with an explicit
`should_download=true` (and a duplicate verdict with
`should_download=false`), and an item with no file name and no size
fails open with `should_download=true`; the metadata screen, however,
returns a result without any `should_download` field when the exception
is caught inside a per-media-type check — only its extraction-failure
and top-level paths set `should_download=true` explicitly. -/
theorem screening_fail_open_characterization :
    (∀ (tg : TgMessage) (extraction : Option FileInfo) (channelId : Nat)
        (db : List MsgRec) (env : PreScreenEnv),
      ((check_duplicate_before_download tg extraction channelId db
          env).isDuplicate = false →
        (check_duplicate_before_download tg extraction channelId db
          env).shouldDownload = some true) ∧
      ((check_duplicate_before_download tg extraction channelId db
          env).isDuplicate = true →
        (check_duplicate_before_download tg extraction channelId db
          env).shouldDownload = some false)) ∧
    (∀ (threshold : ℚ) (meta : FileMetadata) (channelId : Nat)
        (db : List MsgRec) (e : String),
      meta.mediaType = some MediaType.video →
      (check_duplicate_by_metadata threshold (some meta) channelId db
        ⟨none, some e, none, none⟩).isDuplicate = false ∧
      (check_duplicate_by_metadata threshold (some meta) channelId db
        ⟨none, some e, none, none⟩).shouldDownload = none) ∧
    (∀ (tg : TgMessage) (fileInfo : FileInfo) (channelId : Nat)
        (db : List MsgRec),
      fileInfo.fileName = none → fileInfo.fileSize = none →
      fileInfo.telegramFileId = none → tg.forwardChannelPost = none →
      tg.text.length ≤ 20 →
      (check_duplicate_before_download tg (some fileInfo) channelId db
        PreScreenEnv.clean).isDuplicate = false ∧
      (check_duplicate_before_download tg (some fileInfo) channelId db
        PreScreenEnv.clean).shouldDownload = some true) := by
  refine ⟨?_, ?_, ?_⟩
  · intro tg extraction channelId db env
    unfold check_duplicate_before_download
    cases env.topExc with
    | some e => exact ⟨fun _ => rfl, fun h => by simp at h⟩
    | none =>
        dsimp only
        cases extraction with
        | none => exact ⟨fun _ => rfl, fun h => by simp at h⟩
        | some fi =>
            dsimp only
            by_cases h1 : (check_by_file_size_and_name fi channelId db
                env.nameSizeDbExc).isDuplicate
            · rw [if_pos h1]
              exact ⟨fun h => absurd h (by simp [h1]),
                fun _ => name_size_check_dup_shape fi channelId db
                  env.nameSizeDbExc h1⟩
            · rw [if_neg h1]
              by_cases h2 : (check_by_telegram_file_id fi db
                  env.fileIdDbExc).isDuplicate
              · rw [if_pos h2]
                exact ⟨fun h => absurd h (by simp [h2]),
                  fun _ => file_id_check_dup_shape fi db env.fileIdDbExc h2⟩
              · rw [if_neg h2]
                by_cases h3 : (check_by_message_content tg channelId db
                    env.contentDbExc env.textDbExc).isDuplicate
                · rw [if_pos h3]
                  exact ⟨fun h => absurd h (by simp [h3]),
                    fun _ => content_check_dup_shape tg channelId db
                      env.contentDbExc env.textDbExc h3⟩
                · rw [if_neg h3]
                  exact ⟨fun _ => rfl, fun h => by simp at h⟩
  · intro threshold meta channelId db e hmt
    have h := video_check_exc_shape threshold meta channelId db e
    simpa [check_duplicate_by_metadata, hmt] using h
  · intro tg fileInfo channelId db hn hs hfid hfwd hlen
    have hc1 : check_by_file_size_and_name fileInfo channelId db none =
        ScreenResult.bare false "缺少文件名或大小信息" := by
      unfold check_by_file_size_and_name
      rw [hn]
    have hc2 : check_by_telegram_file_id fileInfo db none =
        ScreenResult.bare false "没有Telegram文件ID" := by
      unfold check_by_telegram_file_id
      rw [hfid]
    have hc3 : check_by_message_content tg channelId db none none =
        ScreenResult.bare false "消息内容检查通过" := by
      unfold check_by_message_content
      rw [hfwd]
      rw [if_neg (fun hx => absurd hx.2 (by omega))]
    unfold check_duplicate_before_download PreScreenEnv.clean
    dsimp only
    rw [hc1, hc2, hc3]
    exact ⟨rfl, rfl⟩

/-- Witness for the amended C2: a screen with nothing extractable fails
open; the exception-path video screen omits `should_download`; the
no-name-no-size item fails open. -/
theorem screening_fail_open_characterization_witness :
    (check_duplicate_before_download demo_plain_tg none 1 []
      PreScreenEnv.clean).shouldDownload = some true ∧
    ((check_duplicate_by_metadata (95/100) (some demo_exc_meta) 1 []
        ⟨none, some "boom", none, none⟩).isDuplicate = false ∧
      (check_duplicate_by_metadata (95/100) (some demo_exc_meta) 1 []
        ⟨none, some "boom", none, none⟩).shouldDownload = none) ∧
    ((check_duplicate_before_download demo_plain_tg
        (some demo_empty_fileinfo) 1 [] PreScreenEnv.clean).isDuplicate =
        false ∧
      (check_duplicate_before_download demo_plain_tg
        (some demo_empty_fileinfo) 1 [] PreScreenEnv.clean).shouldDownload =
        some true) := by
  obtain ⟨t1, t2, t3⟩ := screening_fail_open_characterization
  exact ⟨(t1 demo_plain_tg none 1 [] PreScreenEnv.clean).1 rfl,
    t2 (95/100) demo_exc_meta 1 [] "boom" rfl,
    t3 demo_plain_tg demo_empty_fileinfo 1 [] rfl rfl rfl rfl
      (by decide)⟩

theorem demo_video_similarity_eval :
    calculate_video_similarity_meta (95/100) demo_video_meta
      demo_video_candidate = (true, 24/25) := by
  have hd : find_json_nat "duration"
      "\"duration\": 10, \"width\": 1920, \"height\": 1080" = some 10 := by
    decide
  have hw : find_json_nat "width"
      "\"duration\": 10, \"width\": 1920, \"height\": 1080" = some 1920 := by
    decide
  have hh : find_json_nat "height"
      "\"duration\": 10, \"width\": 1920, \"height\": 1080" = some 1080 := by
    decide
  have hne : ¬ (("\"duration\": 10, \"width\": 1920, \"height\": 1080" :
      String) = "") := by decide
  simp only [calculate_video_similarity_meta, demo_video_meta,
    demo_video_candidate, hd, hw, hh, hne]
  norm_num [abs_diff, max_def, min_def, hne]

theorem demo_video_check_eval :
    check_video_duplicate (95/100) demo_video_meta 1 [demo_video_candidate]
      none =
    ⟨false, some true, some true, "视频可能重复，需要人工审核", some 7,
      some (24/25), some "video_metadata_similar", none⟩ := by
  have hcand : video_duplicate_candidates 10 1 [demo_video_candidate] =
      [demo_video_candidate] := by decide
  have hdur : demo_video_meta.duration = some 10 := rfl
  simp only [check_video_duplicate, hdur, hcand, video_duplicate_loop,
    demo_video_similarity_eval]
  norm_num [demo_video_candidate]

/-- Counterexample to C4 as stated: the claim says a combined score at
or above the configured threshold (default 0.95) is marked duplicate
with the fetch skipped, but at score 0.96 (≥ 0.95, < 0.98) the code
only flags the item for manual review and lets the fetch proceed — the
skip decision requires the hard-coded 0.98, not the configured
threshold. -/
theorem video_metadata_threshold_not_skip :
    (calculate_video_similarity_meta (95/100) demo_video_meta
      demo_video_candidate).2 = 24/25 ∧
    (24/25 : ℚ) ≥ 95/100 ∧
    (check_video_duplicate (95/100) demo_video_meta 1 [demo_video_candidate]
      none).isDuplicate = false ∧
    (check_video_duplicate (95/100) demo_video_meta 1 [demo_video_candidate]
      none).shouldDownload = some true ∧
    (check_video_duplicate (95/100) demo_video_meta 1 [demo_video_candidate]
      none).needsManualReview = some true := by
  refine ⟨by rw [demo_video_similarity_eval], by norm_num, ?_, ?_, ?_⟩ <;>
    rw [demo_video_check_eval]

/-- Soundness of the candidate loop of `_check_video_duplicate`. -/
theorem video_loop_sound (threshold : ℚ) (meta : FileMetadata) :
    ∀ (cands : List MsgRec) (r : ScreenResult),
      video_duplicate_loop threshold meta cands = some r →
      (r.isDuplicate = true → r.similarityScore ≠ none ∧
        98/100 ≤ r.similarityScore.getD 0) ∧
      (r.needsManualReview = some true → r.isDuplicate = false ∧
        r.shouldDownload = some true ∧ r.similarityScore ≠ none ∧
        threshold ≤ r.similarityScore.getD 0 ∧
        r.similarityScore.getD 0 < 98/100) := by
  intro cands
  induction cands with
  | nil => intro r h; simp [video_duplicate_loop] at h
  | cons m ms ih =>
      intro r h
      simp only [video_duplicate_loop] at h
      by_cases h1 : (calculate_video_similarity_meta threshold meta m).1
      · rw [if_pos h1] at h
        by_cases h2 :
            (calculate_video_similarity_meta threshold meta m).2 ≥ 98/100
        · rw [if_pos h2] at h
          have hr : r = ⟨true, some false, none, "视频高度相似", some m.id,
              some (calculate_video_similarity_meta threshold meta m).2,
              some "video_metadata", none⟩ := by
            injection h with h'
            exact h'.symm
          subst hr
          refine ⟨fun _ => ⟨by simp, by simpa using h2⟩, fun hrev => ?_⟩
          simp at hrev
        · rw [if_neg h2] at h
          by_cases h3 :
              (calculate_video_similarity_meta threshold meta m).2 ≥ threshold
          · rw [if_pos h3] at h
            have hr : r = ⟨false, some true, some true,
                "视频可能重复，需要人工审核", some m.id,
                some (calculate_video_similarity_meta threshold meta m).2,
                some "video_metadata_similar", none⟩ := by
              injection h with h'
              exact h'.symm
            subst hr
            refine ⟨fun hdup => ?_, fun _ => ?_⟩
            · simp at hdup
            · refine ⟨rfl, rfl, by simp, by simpa using h3, ?_⟩
              simpa using not_le.mp h2
          · rw [if_neg h3] at h
            exact ih r h
      · rw [if_neg h1] at h
        exact ih r h

/-- Claim C4 (amended): in the metadata pre-screen of a video item, a
result marked duplicate requires a combined score at or above the
hard-coded 0.98; a score at or above the configured threshold (default
0.95) but below 0.98 only sets `needs_manual_review=true` with
`should_download=true`, so the fetch proceeds. -/
theorem video_metadata_thresholds :
    ∀ (threshold : ℚ) (meta : FileMetadata) (channelId : Nat)
      (db : List MsgRec),
      ((check_video_duplicate threshold meta channelId db
          none).isDuplicate = true →
        (check_video_duplicate threshold meta channelId db
          none).similarityScore ≠ none ∧
        98/100 ≤ (check_video_duplicate threshold meta channelId db
          none).similarityScore.getD 0) ∧
      ((check_video_duplicate threshold meta channelId db
          none).needsManualReview = some true →
        (check_video_duplicate threshold meta channelId db
          none).isDuplicate = false ∧
        (check_video_duplicate threshold meta channelId db
          none).shouldDownload = some true ∧
        (check_video_duplicate threshold meta channelId db
          none).similarityScore ≠ none ∧
        threshold ≤ (check_video_duplicate threshold meta channelId db
          none).similarityScore.getD 0 ∧
        (check_video_duplicate threshold meta channelId db
          none).similarityScore.getD 0 < 98/100) := by
  intro threshold meta channelId db
  cases hd : meta.duration with
  | none =>
      constructor <;> intro hcontra <;>
        simp [check_video_duplicate, hd, ScreenResult.bare] at hcontra
  | some d =>
      by_cases hdz : d = 0
      · constructor <;> intro hcontra <;>
          simp [check_video_duplicate, hd, hdz, ScreenResult.bare] at hcontra
      · cases hl : video_duplicate_loop threshold meta
            (video_duplicate_candidates d channelId db) with
        | none =>
            constructor <;> intro hcontra <;>
              simp [check_video_duplicate, hd, hdz, hl,
                ScreenResult.bare] at hcontra
        | some r =>
            have heq : check_video_duplicate threshold meta channelId db
                none = r := by
              simp [check_video_duplicate, hd, hdz, hl]
            rw [heq]
            exact video_loop_sound threshold meta _ r hl

/-- Witness for the amended C4: at the 0.96-scoring candidate the check
returns the manual-review outcome with the fetch proceeding. -/
theorem video_metadata_thresholds_witness :
    (check_video_duplicate (95/100) demo_video_meta 1 [demo_video_candidate]
      none).isDuplicate = false ∧
    (check_video_duplicate (95/100) demo_video_meta 1 [demo_video_candidate]
      none).shouldDownload = some true ∧
    (check_video_duplicate (95/100) demo_video_meta 1 [demo_video_candidate]
      none).similarityScore ≠ none ∧
    (95/100 : ℚ) ≤ (check_video_duplicate (95/100) demo_video_meta 1
      [demo_video_candidate] none).similarityScore.getD 0 ∧
    (check_video_duplicate (95/100) demo_video_meta 1 [demo_video_candidate]
      none).similarityScore.getD 0 < 98/100 :=
  (video_metadata_thresholds (95/100) demo_video_meta 1
    [demo_video_candidate]).2 (by rw [demo_video_check_eval])

theorem demo_boundary_similarity :
    calculate_text_similarity demo_item_text demo_boundary_row.messageText =
      4/5 := by
  have h1 : (lower_token_set demo_item_text).isEmpty = false := by decide
  have h2 : (lower_token_set demo_boundary_row.messageText).isEmpty = false :=
    by decide
  have h3 : ((lower_token_set demo_item_text).filter
      (fun w => w ∈ lower_token_set demo_boundary_row.messageText)).length =
      8 := by decide
  have h4 : ((lower_token_set demo_item_text) ++
      (lower_token_set demo_boundary_row.messageText).filter
        (fun w => w ∉ lower_token_set demo_item_text)).length = 10 := by decide
  simp only [calculate_text_similarity, h1, h2, h3, h4]
  norm_num

theorem demo_similar_similarity :
    calculate_text_similarity demo_item_text demo_similar_row.messageText =
      9/10 := by
  have h1 : (lower_token_set demo_item_text).isEmpty = false := by decide
  have h2 : (lower_token_set demo_similar_row.messageText).isEmpty = false :=
    by decide
  have h3 : ((lower_token_set demo_item_text).filter
      (fun w => w ∈ lower_token_set demo_similar_row.messageText)).length =
      9 := by decide
  have h4 : ((lower_token_set demo_item_text) ++
      (lower_token_set demo_similar_row.messageText).filter
        (fun w => w ∉ lower_token_set demo_item_text)).length = 10 := by decide
  simp only [calculate_text_similarity, h1, h2, h3, h4]
  norm_num

theorem demo_find_boundary_none :
    find_similar_text_message demo_item_text 1 [demo_boundary_row] none =
      none := by
  have hkw : extract_keywords demo_item_text = ["alpha"] := by decide
  have hpred : ¬ (demo_boundary_row.messageText ≠ "" ∧
      demo_boundary_row.messageText.length > 20 ∧
      calculate_text_similarity demo_item_text
        demo_boundary_row.messageText > 8/10) := by
    intro h
    rw [demo_boundary_similarity] at h
    exact absurd h.2.2 (by norm_num)
  have hmsgs : (([demo_boundary_row].filter (fun m =>
      str_contains_sub m.messageText "alpha" ∧ m.channelId = 1 ∧
      m.status ≠ MessageStatus.duplicate)).take 5) = [demo_boundary_row] := by
    decide
  simp only [find_similar_text_message, hkw, text_similarity_loop, hmsgs,
    List.find?_cons, decide_eq_false hpred, List.find?_nil]

theorem demo_find_similar_some :
    find_similar_text_message demo_item_text 1 [demo_similar_row] none =
      some demo_similar_row := by
  have hkw : extract_keywords demo_item_text = ["alpha"] := by decide
  have hpred : demo_similar_row.messageText ≠ "" ∧
      demo_similar_row.messageText.length > 20 ∧
      calculate_text_similarity demo_item_text
        demo_similar_row.messageText > 8/10 := by
    refine ⟨by decide, by decide, ?_⟩
    rw [demo_similar_similarity]
    norm_num
  have hmsgs : (([demo_similar_row].filter (fun m =>
      str_contains_sub m.messageText "alpha" ∧ m.channelId = 1 ∧
      m.status ≠ MessageStatus.duplicate)).take 5) = [demo_similar_row] := by
    decide
  simp only [find_similar_text_message, hkw, text_similarity_loop, hmsgs,
    List.find?_cons, decide_eq_true hpred]

/-- Counterexample to C9 as stated: the claim says a candidate with
Jaccard similarity greater than or equal to 0.8 is flagged (inclusive
boundary), but the code compares with a strict `> 0.8`: a candidate
scoring exactly 4/5 = 0.8 is not flagged. -/
theorem text_boundary_not_flagged :
    calculate_text_similarity demo_item_text demo_boundary_row.messageText =
      4/5 ∧
    (4/5 : ℚ) ≥ 8/10 ∧
    find_similar_text_message demo_item_text 1 [demo_boundary_row] none =
      none :=
  ⟨demo_boundary_similarity, by norm_num, demo_find_boundary_none⟩

/-- Any hit of the keyword/candidate loop is an in-scope stored row with
text longer than 20 characters and Jaccard similarity strictly above
0.8. -/
theorem text_loop_sound (text : String) (channelId : Nat) (db : List MsgRec) :
    ∀ (kws : List String) (m : MsgRec),
      text_similarity_loop text channelId db kws = some m →
      m ∈ db ∧ m.channelId = channelId ∧
      m.status ≠ MessageStatus.duplicate ∧ m.messageText.length > 20 ∧
      calculate_text_similarity text m.messageText > 8/10 := by
  intro kws
  induction kws with
  | nil => intro m h; simp [text_similarity_loop] at h
  | cons k ks ih =>
      intro m h
      simp only [text_similarity_loop] at h
      cases hf : ((db.filter (fun m => str_contains_sub m.messageText k ∧
          m.channelId = channelId ∧
          m.status ≠ MessageStatus.duplicate)).take 5).find?
          (fun m => m.messageText ≠ "" ∧ m.messageText.length > 20 ∧
            calculate_text_similarity text m.messageText > 8/10) with
      | none =>
          rw [hf] at h
          exact ih m h
      | some x =>
          rw [hf] at h
          have hxm : x = m := by injection h
          subst hxm
          have hpx := List.find?_some hf
          have hmem := List.mem_of_find?_eq_some hf
          have hmem' := List.mem_filter.mp (List.mem_of_mem_take hmem)
          simp only [decide_eq_true_eq] at hpx
          simp only [decide_eq_true_eq] at hmem'
          exact ⟨hmem'.1, hmem'.2.2.1, hmem'.2.2.2, hpx.2.1, hpx.2.2⟩

/-- Claim C9 (amended): the free-text screen extracts at most 5 keywords
of length greater than 3 and flags a candidate only when its Jaccard
similarity is strictly greater than 0.8 (the boundary is exclusive, not
inclusive); every flagged candidate is an in-scope non-duplicate row
with text longer than 20 characters. -/
theorem text_similarity_strict_threshold :
    (∀ (text : String) (channelId : Nat) (db : List MsgRec) (m : MsgRec),
      find_similar_text_message text channelId db none = some m →
      m ∈ db ∧ m.channelId = channelId ∧
      m.status ≠ MessageStatus.duplicate ∧ m.messageText.length > 20 ∧
      calculate_text_similarity text m.messageText > 8/10) ∧
    (∀ text : String, (extract_keywords text).length ≤ 5 ∧
      (extract_keywords text).all (fun k => decide (k.length > 3)) = true) := by
  constructor
  · intro text channelId db m h
    exact text_loop_sound text channelId db (extract_keywords text) m h
  · intro text
    constructor
    · exact List.length_take_le 5
        ((py_split text).filter (fun w => w.length > 3))
    · rw [List.all_eq_true]
      intro k hk
      have h1 := List.mem_of_mem_take (l := (py_split text).filter
        (fun w => w.length > 3)) hk
      have h2 := (List.mem_filter.mp h1).2
      simpa using h2

/-- Witness for the amended C9 at a candidate scoring 9/10. -/
theorem text_similarity_strict_threshold_witness :
    (demo_similar_row ∈ [demo_similar_row] ∧ demo_similar_row.channelId = 1 ∧
      demo_similar_row.status ≠ MessageStatus.duplicate ∧
      demo_similar_row.messageText.length > 20 ∧
      calculate_text_similarity demo_item_text
        demo_similar_row.messageText > 8/10) ∧
    ((extract_keywords demo_item_text).length ≤ 5 ∧
      (extract_keywords demo_item_text).all
        (fun k => decide (k.length > 3)) = true) :=
  ⟨text_similarity_strict_threshold.1 demo_item_text 1 [demo_similar_row]
      demo_similar_row demo_find_similar_some,
    text_similarity_strict_threshold.2 demo_item_text⟩

/-- Claim C7: `dedup_manager.py` never imports `Path`, so every
confirmed cleanup iteration over a row with a recorded file path raises
`NameError`, caught and recorded as a per-file error: no file is ever
deleted and no space is ever freed.  On the spec's scenario (10
duplicate files, file 7 missing on disk) the operation still returns
success, but with 0 deletions and 10 recorded errors instead of 9
deletions and 1 error. -/
theorem cleanup_confirmed_deletes_nothing :
    (∀ rows : List CleanupMsg,
      (cleanup_duplicate_files true rows).deletedFiles = 0 ∧
      (cleanup_duplicate_files true rows).spaceFreedBytes = 0 ∧
      (cleanup_duplicate_files true rows).success = true) ∧
    (cleanup_duplicate_files true demo_cleanup_rows).deletedFiles = 0 ∧
    (cleanup_duplicate_files true demo_cleanup_rows).errors.length = 10 ∧
    (cleanup_duplicate_files true demo_cleanup_rows).success = true := by
  refine ⟨fun rows => ?_, by decide, by decide, by decide⟩
  obtain ⟨h1, h2⟩ := cleanup_fold_counts rows (0, 0, [])
  refine ⟨?_, ?_, ?_⟩ <;> simp [cleanup_duplicate_files, h1, h2]

end Caijibot
